import Mathlib

/-!
# rn1-brain: lidar session state machine and packet decoder (`lidar.c`)

Shallow embedding of the Scanse Sweep driver in `lidar.c`:

* `lidar_on`, `lidar_off` : the control pair,
* `lidar_fsm` : the 1 kHz polling tick (the second, state-machine definition of
  that name in the file),
* `lidar_rx_done_inthandler` : the transport-completion handler,
* `generate_lidar_ignore` : the self-occlusion mask builder.

Globals of the C file become fields of `State`; what the handler reads from
outside the file (receive buffers filled by DMA, the DMA current-target bit,
`cur_pos`) is the record `Hw`; calls that leave the file (`LIDAR_ENA`,
`LIDAR_DIS`, `lidar_send_cmd`, `lidar_start_acq`) are appended to the effect
log `State.io`.  Constants that `lidar.c` uses but does not define (`sin_lut`,
`ANG_1PER16_DEG`, `SIN_LUT_SHIFT`, `LIDAR_IGNORE_LEN`, `LIDAR_IGNORE_LEN_FRONT`)
are parameters.
-/

namespace Lidar

/-! ## Data model -/

/-- The enumeration `lidar_state_t`.  `S_LIDAR_RECONF` is assigned by `lidar_on`
but is not listed in the enumeration of `lidar.c`; it is added as one more value. -/
inductive lidar_state_t
  | S_LIDAR_UNINIT
  | S_LIDAR_OFF
  | S_LIDAR_WAITPOWERED
  | S_LIDAR_PRECONF_WAIT_READY
  | S_LIDAR_CONF1
  | S_LIDAR_CONF2
  | S_LIDAR_WAIT_READY
  | S_LIDAR_WAIT_START_ACK
  | S_LIDAR_RUNNING
  | S_LIDAR_ERROR
  | S_LIDAR_RECONF
  deriving DecidableEq, Repr

open lidar_state_t

/-- Robot pose `pos_t` (declared outside `lidar.c`): heading and position,
32-bit integers. -/
structure pos_t where
  ang : Int
  x : Int
  y : Int
  deriving DecidableEq, Repr

/-- One slot of a scan: the fields `valid`, `x`, `y` written by the handler. -/
structure point_t where
  valid : Nat
  x : Int
  y : Int
  deriving DecidableEq, Repr

/-- The type `lidar_scan_t`: the slot array `scan[720]` and the two pose snapshots. -/
structure lidar_scan_t where
  pos_at_start : pos_t
  pos_at_end : pos_t
  scan : Nat → point_t

/-- Calls that leave `lidar.c`. `send_cmd tx rx_len` is `lidar_send_cmd(tx_len, rx_len)`
with `tx` the first `tx_len` bytes of `lidar_txbuf` at the time of the call. -/
inductive Effect
  | lidar_ena
  | lidar_dis
  | send_cmd (tx : List Nat) (rx_len : Nat)
  | start_acq
  deriving DecidableEq, Repr

/-- The globals of `lidar.c` that the session uses.  `acq_lidar_scan` and
`prev_lidar_scan` are pointers into `lidar_scans[2]`, kept as indices.
`chk_err_cnt` is declared outside the file and is taken as an `int`, like the
other counters.  Counters are unbounded integers (no 32-bit wrap). -/
structure State where
  cur_lidar_state : lidar_state_t
  lidar_fps : Int
  lidar_smp : Int
  powerwait_cnt : Int
  wait_ready_poll_cnt : Int
  chk_err_cnt : Int
  lidar_error_flags : Nat
  lidar_txbuf : Nat → Nat
  lidar_scans : Fin 2 → lidar_scan_t
  acq_lidar_scan : Fin 2
  prev_lidar_scan : Fin 2
  io : List Effect

/-- What the completion handler reads from outside the file: the two 16-byte
receive buffers `lidar_rxbuf[2][16]`, bit 19 (current target) of
`DMA2_Stream2->CR`, and the pose `cur_pos`; and the address at which the linker
places the array `lidar_rxbuf`. -/
structure Hw where
  lidar_rxbuf : Fin 2 → Fin 16 → Fin 256
  dma_ct : Bool
  cur_pos : pos_t
  lidar_rxbuf_addr : Nat

/-- Constants used by the decoder and defined outside `lidar.c`. -/
structure Tables where
  sin_lut : Int → Int
  ANG_1PER16_DEG : Int
  SIN_LUT_SHIFT : Nat

/-! ## Machine arithmetic -/

/-- Conversion to `int32_t` (two's complement wrap). -/
def to_int32 (v : Int) : Int := (v + 2147483648) % 4294967296 - 2147483648

/-- Conversion to `uint32_t`. -/
def to_uint32 (v : Int) : Nat := (v % 4294967296).toNat

/-- Store of an `int` value into a `uint8_t` array (conversion modulo 256). -/
def store8 (a : Nat → Nat) (i : Nat) (v : Int) : Nat → Nat :=
  fun j => if j = i then (v % 256).toNat else a j

/-! ## Transport and control -/

/-- The call `lidar_send_cmd(tx_len, rx_len)`: hands the first `tx_len` bytes of
`lidar_txbuf` to the transmitter and arms reception of `rx_len` bytes. -/
def lidar_send_cmd (tx_len rx_len : Nat) (s : State) : State :=
  { s with io := s.io ++ [Effect.send_cmd ((List.range tx_len).map s.lidar_txbuf) rx_len] }

/-- The call `lidar_start_acq()`: circular double-buffer reception. -/
def lidar_start_acq (s : State) : State :=
  { s with io := s.io ++ [Effect.start_acq] }

/-- The function `lidar_on(fps, smp)`. -/
def lidar_on (fps smp : Int) (s : State) : State :=
  if fps < 1 ∨ fps > 5 ∨ smp < 1 ∨ smp > 3 then s
  else
    let s1 : State := { s with lidar_fps := fps, lidar_smp := smp, io := s.io ++ [Effect.lidar_ena] }
    if s1.cur_lidar_state = S_LIDAR_RUNNING then
      { s1 with cur_lidar_state := S_LIDAR_RECONF }
    else
      { s1 with cur_lidar_state := S_LIDAR_WAITPOWERED }

/-- The function `lidar_off()`. -/
def lidar_off (s : State) : State :=
  { s with io := s.io ++ [Effect.lidar_dis], cur_lidar_state := S_LIDAR_OFF }

/-- The polling tick `lidar_fsm()` (second definition in the file, called at 1 kHz).
`powerwait_cnt` is its function-local static. -/
def lidar_fsm (s : State) : State :=
  match s.cur_lidar_state with
  | S_LIDAR_WAITPOWERED =>
    let s1 : State := { s with powerwait_cnt := s.powerwait_cnt + 1 }
    if s1.powerwait_cnt > 2000 then
      { s1 with powerwait_cnt := 0, wait_ready_poll_cnt := 1000,
                cur_lidar_state := S_LIDAR_PRECONF_WAIT_READY }
    else s1
  | S_LIDAR_PRECONF_WAIT_READY | S_LIDAR_WAIT_READY =>
    let s1 : State := { s with wait_ready_poll_cnt := s.wait_ready_poll_cnt - 1 }
    if s1.wait_ready_poll_cnt = 0 then
      lidar_send_cmd 3 4
        { s1 with lidar_txbuf := store8 (store8 (store8 s1.lidar_txbuf 0 77) 1 90) 2 10 }
    else s1
  | _ => s

/-! ## Completion handler -/

/-- The value of the expression `lidar_rxbuf[i]` in the configuration branches.  The
buffer is declared `uint8_t lidar_rxbuf[2][16]`, so with a single subscript the
expression is row `i` of the array, and in the comparison with a character it is
the address of that row: the address of the array plus 16 bytes per row, a 32-bit
value.  No byte of the reply is read. -/
def rx (e : Hw) (i : Fin 16) : Int :=
  (((e.lidar_rxbuf_addr + 16 * i.val) % 4294967296 : Nat) : Int)

/-- Apply `f` to the scan that pointer `p` designates. -/
def upd_scan (s : State) (p : Fin 2) (f : lidar_scan_t → lidar_scan_t) : State :=
  { s with lidar_scans := fun k => if k = p then f (s.lidar_scans k) else s.lidar_scans k }

/-- The sync block of the running branch: snapshot into the acquiring scan,
pointer swap, snapshot into the now-acquiring scan. -/
def sync_swap (cur_pos : pos_t) (s : State) : State :=
  let s1 := upd_scan s s.acq_lidar_scan (fun sc => { sc with pos_at_end := cur_pos })
  let s2 : State := { s1 with prev_lidar_scan := s1.acq_lidar_scan, acq_lidar_scan := s1.prev_lidar_scan }
  upd_scan s2 s2.acq_lidar_scan (fun sc => { sc with pos_at_start := cur_pos })

/-- Index of the receive buffer the running branch reads: the one the DMA is not
writing, `(CR & (1<<19)) ? 0 : 1`. -/
def buf_idx (e : Hw) : Fin 2 := if e.dma_ct then 0 else 1

/-- Byte `i` of the packet read by the running branch. -/
def pkt (e : Hw) (i : Fin 16) : Nat := (e.lidar_rxbuf (buf_idx e) i).val

/-- The checksum computed by the running branch: sum of bytes 0..5 modulo 255. -/
def pkt_chk (e : Hw) : Nat :=
  (pkt e 0 + pkt e 1 + pkt e 2 + pkt e 3 + pkt e 4 + pkt e 5) % 255

/-- The decoded angle `degper16`, 1/16 degree units, little endian. -/
def degper16 (e : Hw) : Nat := (pkt e 2 <<< 8) ||| pkt e 1

/-- The decoded length `len` in centimetres, little endian. -/
def pkt_len (e : Hw) : Nat := (pkt e 4 <<< 8) ||| pkt e 3

/-- The heading `ang32 = (uint32_t)cur_pos.ang + degper16*ANG_1PER16_DEG`. -/
def ang32 (T : Tables) (e : Hw) : Nat :=
  to_uint32 (e.cur_pos.ang + (degper16 e : Int) * T.ANG_1PER16_DEG)

/-- The table index `y_idx = (ang32) >> SIN_LUT_SHIFT`, an `int32_t`. -/
def y_idx (T : Tables) (e : Hw) : Int :=
  to_int32 ((ang32 T e >>> T.SIN_LUT_SHIFT : Nat) : Int)

/-- The table index `x_idx = (1073741824 - ang32) >> SIN_LUT_SHIFT`, an `int32_t`;
the subtraction is unsigned 32-bit. -/
def x_idx (T : Tables) (e : Hw) : Int :=
  to_int32 ((to_uint32 (1073741824 - (ang32 T e : Int)) >>> T.SIN_LUT_SHIFT : Nat) : Int)

/-- The offset `((int32_t)sin_lut[idx] * (int32_t)len) >> 15` in 32-bit arithmetic,
with arithmetic right shift. -/
def lut_mul (T : Tables) (idx : Int) (len : Int) : Int :=
  (to_int32 (to_int32 (T.sin_lut idx) * to_int32 len)) >>> 15

/-- The decode-and-store tail of the running branch, from the angle decode on;
`s` is the state after the decay and the sync block. -/
def rx_store (T : Tables) (e : Hw) (s : State) : State :=
  let degper2 : Nat := degper16 e >>> 3
  if degper2 > 719 then
    { s with chk_err_cnt := s.chk_err_cnt + 20 }
  else if pkt_len e < 2 then
    upd_scan s s.acq_lidar_scan (fun sc =>
      { sc with scan := fun j => if j = degper2 then { sc.scan j with valid := 0 } else sc.scan j })
  else
    let len : Int := to_int32 ((pkt_len e : Int) * 10)
    upd_scan s s.acq_lidar_scan (fun sc =>
      { sc with scan := fun j => if j = degper2 then
          { valid := 1,
            x := to_int32 (e.cur_pos.x + lut_mul T (x_idx T e) len),
            y := to_int32 (e.cur_pos.y + lut_mul T (y_idx T e) len) }
        else sc.scan j })

/-- The running branch after the checksum and error-flag test has passed: decay of
the penalty, sync block when the status byte is non-zero, then decode and store. -/
def rx_good (T : Tables) (e : Hw) (s : State) : State :=
  let s1 : State := if s.chk_err_cnt ≠ 0 then { s with chk_err_cnt := s.chk_err_cnt - 1 } else s
  let s2 : State := if pkt e 0 ≠ 0 then sync_swap e.cur_pos s1 else s1
  rx_store T e s2

/-- The running branch of `lidar_rx_done_inthandler` (case `S_LIDAR_RUNNING`). -/
def rx_running (T : Tables) (e : Hw) (s : State) : State :=
  if pkt_chk e ≠ pkt e 6 ∨ (pkt e 0 &&& 254) ≠ 0 then
    let s1 : State := { s with chk_err_cnt := s.chk_err_cnt + 20 }
    if s1.chk_err_cnt > 100 then
      { s1 with cur_lidar_state := S_LIDAR_ERROR, lidar_error_flags := pkt e 0 }
    else s1
  else
    rx_good T e s

/-- The completion handler `lidar_rx_done_inthandler()`. -/
def lidar_rx_done_inthandler (T : Tables) (e : Hw) (s : State) : State :=
  match s.cur_lidar_state with
  | S_LIDAR_PRECONF_WAIT_READY =>
    if rx e 0 = 77 ∧ rx e 1 = 90 ∧ rx e 2 = 48 ∧ rx e 3 = 48 then
      let tx := store8 (store8 (store8 (store8 (store8 s.lidar_txbuf 0 77) 1 83) 2 48) 3
                  (48 + s.lidar_fps)) 4 10
      { lidar_send_cmd 5 9 { s with lidar_txbuf := tx } with cur_lidar_state := S_LIDAR_CONF1 }
    else
      { s with wait_ready_poll_cnt := 100 }
  | S_LIDAR_CONF1 =>
    if rx e 0 = 77 ∧ rx e 1 = 83 ∧ rx e 2 = 48 ∧ rx e 3 = 48 + s.lidar_fps ∧ rx e 4 = 10 ∧
       rx e 5 = 48 ∧ rx e 6 = 48 ∧ rx e 7 = 80 ∧ rx e 8 = 10 then
      let tx := store8 (store8 (store8 (store8 (store8 s.lidar_txbuf 0 76) 1 82) 2 48) 3
                  (48 + s.lidar_smp)) 4 10
      { lidar_send_cmd 5 9 { s with lidar_txbuf := tx } with cur_lidar_state := S_LIDAR_CONF2 }
    else
      { s with cur_lidar_state := S_LIDAR_ERROR }
  | S_LIDAR_CONF2 =>
    if rx e 0 = 76 ∧ rx e 1 = 82 ∧ rx e 2 = 48 ∧ rx e 3 = 48 + s.lidar_smp ∧ rx e 4 = 10 ∧
       rx e 5 = 48 ∧ rx e 6 = 48 ∧ rx e 7 = 80 ∧ rx e 8 = 10 then
      { s with wait_ready_poll_cnt := 1000, cur_lidar_state := S_LIDAR_WAIT_READY }
    else
      { s with cur_lidar_state := S_LIDAR_ERROR }
  | S_LIDAR_WAIT_READY =>
    if rx e 0 = 77 ∧ rx e 1 = 90 ∧ rx e 2 = 48 ∧ rx e 3 = 48 then
      let tx := store8 (store8 (store8 s.lidar_txbuf 0 68) 1 83) 2 10
      { lidar_send_cmd 3 6 { s with lidar_txbuf := tx } with cur_lidar_state := S_LIDAR_WAIT_START_ACK }
    else
      { s with wait_ready_poll_cnt := 100 }
  | S_LIDAR_WAIT_START_ACK =>
    if rx e 0 = 68 ∧ rx e 1 = 83 ∧ rx e 2 = 48 ∧ rx e 3 = 48 ∧ rx e 4 = 80 then
      { lidar_start_acq s with cur_lidar_state := S_LIDAR_RUNNING, chk_err_cnt := 0 }
    else
      { s with cur_lidar_state := S_LIDAR_ERROR }
  | S_LIDAR_RUNNING => rx_running T e s
  | _ => s

/-! ## Self-occlusion mask -/

/-- The two minimum-range thresholds, macros defined outside `lidar.c`. -/
structure IgnoreLen where
  LIDAR_IGNORE_LEN : Int
  LIDAR_IGNORE_LEN_FRONT : Int

/-- The field `lidar_full_rev[i].d[o].flags_distance`, a `uint16_t`: the reference
revolution is given as a function of packet index and sample index. -/
def flags_distance (lidar_full_rev : Nat → Nat → Nat) (i o : Nat) : Nat :=
  lidar_full_rev i o % 65536

/-- Body of the inner loop of `generate_lidar_ignore` for packet `i`, sample `o`. -/
def ignore_body (L : IgnoreLen) (lidar_full_rev : Nat → Nat → Nat) (m : Nat → Nat)
    (i o : Nat) : Nat → Nat :=
  if flags_distance lidar_full_rev i o &&& (1 <<< 15) = 0 then
    if ((flags_distance lidar_full_rev i o &&& 0x3fff : Nat) : Int) <
        (if i < 12 ∨ i ≥ 78 then L.LIDAR_IGNORE_LEN_FRONT else L.LIDAR_IGNORE_LEN) then
      let cur : Nat := i * 4 + o
      let next : Nat := if cur + 1 > 359 then 0 else cur + 1
      let prev : Nat := if (cur : Int) - 1 < 0 then 359 else cur - 1
      store8 (store8 (store8 m prev 1) cur 1) next 1
    else m
  else m

/-- The function `generate_lidar_ignore()`: the result is the new content of
`lidar_ignore[360]`, computed from the previous content and the reference
revolution `lidar_full_rev[90]`. -/
def generate_lidar_ignore (L : IgnoreLen) (lidar_full_rev : Nat → Nat → Nat)
    (lidar_ignore : Nat → Nat) : Nat → Nat :=
  let m0 := (List.range 360).foldl (fun m i => store8 m i 0) lidar_ignore
  (List.range 90).foldl
    (fun m i => (List.range 4).foldl (fun m o => ignore_body L lidar_full_rev m i o) m) m0

/-- Sample `k` (packet `k / 4`, position `k % 4`) of the reference revolution is
below the minimum range for its bearing: invalid flag (bit 15) clear and 14-bit
distance below the front threshold for packets 0..11 and 78..89, below the
general threshold otherwise. -/
def too_near (L : IgnoreLen) (lidar_full_rev : Nat → Nat → Nat) (k : Nat) : Prop :=
  (flags_distance lidar_full_rev (k / 4) (k % 4)).testBit 15 = false ∧
  ((flags_distance lidar_full_rev (k / 4) (k % 4) % 16384 : Nat) : Int) <
    (if k / 4 ≤ 11 ∨ 78 ≤ k / 4 then L.LIDAR_IGNORE_LEN_FRONT else L.LIDAR_IGNORE_LEN)

/-- Index `k` is `j` or one of its two neighbours on the circle of 360 entries. -/
def neighbours (j k : Nat) : Prop := k = j ∨ k = (j + 1) % 360 ∨ k = (j + 359) % 360

/-- Loop invariant of `generate_lidar_ignore` after the first `n` samples. -/
def ignore_inv (L : IgnoreLen) (lidar_full_rev : Nat → Nat → Nat) (n : Nat)
    (m : Nat → Nat) : Prop :=
  ∀ j, j < 360 →
    (m j = 1 ↔ ∃ k, k < n ∧ neighbours j k ∧ too_near L lidar_full_rev k) ∧
    (m j = 0 ∨ m j = 1)

/-! ## Event sequences -/

/-- The four entry points of the session. -/
inductive Event
  | on (fps smp : Int)
  | off
  | tick
  | rx_done (e : Hw)

/-- One event applied to the session. -/
def step (T : Tables) (s : State) : Event → State
  | Event.on fps smp => lidar_on fps smp s
  | Event.off => lidar_off s
  | Event.tick => lidar_fsm s
  | Event.rx_done e => lidar_rx_done_inthandler T e s

/-- The session after a sequence of events. -/
def run (T : Tables) (s : State) : List Event → State
  | [] => s
  | ev :: evs => run T (step T s ev) evs

/-- The value of `cur_lidar_state` after each event of a sequence. -/
def states_along (T : Tables) (s : State) : List Event → List lidar_state_t
  | [] => []
  | ev :: evs => (step T s ev).cur_lidar_state :: states_along T (step T s ev) evs

/-- Removal of immediate repetitions: the distinct states in order of visit. -/
def dedup_adj : List lidar_state_t → List lidar_state_t
  | [] => []
  | [a] => [a]
  | a :: b :: l => if a = b then dedup_adj (b :: l) else a :: dedup_adj (b :: l)

/-- The hardware view in which the received bytes are `bs` (remaining buffer
bytes zero), other inputs as in `e0`. -/
def with_reply (e0 : Hw) (bs : List Nat) : Hw :=
  { e0 with lidar_rxbuf := fun _ i => Fin.ofNat (bs.getD i.val 0) }

/-- The scripted start-up run: `lidar_on`, 2001 settle ticks and 1000 ticks to the
first poll, replies "MZ00", "MS0<fps>\n00P\n", "LR0<smp>\n00P\n", 1000 ticks
to the next poll, replies "MZ00" and "DS00P" (sixth received byte `b5`). -/
def start_script (fps smp : Int) (e0 : Hw) (b5 : Nat) : List Event :=
  [Event.on fps smp] ++ List.replicate 2001 Event.tick ++ List.replicate 1000 Event.tick ++
  [Event.rx_done (with_reply e0 [77, 90, 48, 48]),
   Event.rx_done (with_reply e0 [77, 83, 48, 48 + fps.toNat, 10, 48, 48, 80, 10]),
   Event.rx_done (with_reply e0 [76, 82, 48, 48 + smp.toNat, 10, 48, 48, 80, 10])] ++
  List.replicate 1000 Event.tick ++
  [Event.rx_done (with_reply e0 [77, 90, 48, 48]),
   Event.rx_done (with_reply e0 [68, 83, 48, 48, 80, b5])]

/-! ## Reply framing and packet predicates used in the statements -/

/-- The first `n` bytes of the reply: the content of receive buffer 0, into which the
reception armed by `lidar_send_cmd` stores it (`M0AR`). -/
def reply_bytes (e : Hw) (n : Nat) : List Int :=
  (List.range n).map (fun i => ((e.lidar_rxbuf 0 (Fin.ofNat i)).val : Int))

/-- The reply the sensor sends when a configuration step succeeds: the echoed
command with its argument, the status "00", the status checksum "P", each part
closed by a line feed.  Conf1: "MS0<fps>\n00P\n" (9 bytes), Conf2:
"LR0<smp>\n00P\n" (9 bytes), WaitStartAck: "DS00P\n" (6 bytes). -/
def expected_reply (s : State) : List Int :=
  match s.cur_lidar_state with
  | S_LIDAR_CONF1 => [77, 83, 48, 48 + s.lidar_fps, 10, 48, 48, 80, 10]
  | S_LIDAR_CONF2 => [76, 82, 48, 48 + s.lidar_smp, 10, 48, 48, 80, 10]
  | S_LIDAR_WAIT_START_ACK => [68, 83, 48, 48, 80, 10]
  | _ => []

/-- Number of reply bytes requested by the `lidar_send_cmd` call that leads into a
configuration step. -/
def requested_len : lidar_state_t → Nat
  | S_LIDAR_CONF1 => 9
  | S_LIDAR_CONF2 => 9
  | S_LIDAR_WAIT_START_ACK => 6
  | _ => 0

/-- Some of the upper seven bits (bits 1..7) of a status byte is set. -/
def has_error_bit (b : Nat) : Prop := ∃ i, 1 ≤ i ∧ i ≤ 7 ∧ b.testBit i = true

/-- The packet fails the checksum test: byte 6 differs from the sum of bytes 0..5
modulo 255. -/
def chk_fails (e : Hw) : Prop :=
  pkt e 6 ≠ (pkt e 0 + pkt e 1 + pkt e 2 + pkt e 3 + pkt e 4 + pkt e 5) % 255

/-- The slot index `degper2 = degper16 >> 3` (half-degree resolution). -/
def slot_of (e : Hw) : Nat := degper16 e >>> 3

/-- The penalty after the decay step `if(chk_err_cnt) chk_err_cnt--`. -/
def decayed (c : Int) : Int := if c ≠ 0 then c - 1 else c

/-- The x coordinate as C6 words it: the table entry at the heading. -/
def claimed_x (T : Tables) (e : Hw) : Int :=
  e.cur_pos.x + ((T.sin_lut ((ang32 T e >>> T.SIN_LUT_SHIFT : Nat) : Int) *
    (10 * (pkt_len e : Int))) >>> 15)

/-- The y coordinate as C6 words it: the table entry at the quarter-turn complement
`(2^30 - h)` of the heading (taken modulo 2^32). -/
def claimed_y (T : Tables) (e : Hw) : Int :=
  e.cur_pos.y + ((T.sin_lut
    ((to_uint32 (1073741824 - (ang32 T e : Int)) >>> T.SIN_LUT_SHIFT : Nat) : Int) *
    (10 * (pkt_len e : Int))) >>> 15)

instance (e : Hw) : Decidable (chk_fails e) := by
  unfold chk_fails; infer_instance

/-! ## Concrete inputs -/

/-- The globals after `init_lidar()`: state Off, `lidar_fps = lidar_smp = 2`,
zero-initialised counters and buffers.  No code in `lidar.c` assigns
`acq_lidar_scan` or `prev_lidar_scan` before the swap in the running branch
(`init_lidar` sets neither); here they are placed on scans 0 and 1, the
double-buffer arrangement that the comment above `lidar_scans` describes. -/
def boot_state : State :=
  { cur_lidar_state := S_LIDAR_OFF, lidar_fps := 2, lidar_smp := 2, powerwait_cnt := 0,
    wait_ready_poll_cnt := 0, chk_err_cnt := 0, lidar_error_flags := 0,
    lidar_txbuf := fun _ => 0,
    lidar_scans := fun _ => { pos_at_start := ⟨0, 0, 0⟩, pos_at_end := ⟨0, 0, 0⟩,
                              scan := fun _ => ⟨0, 0, 0⟩ },
    acq_lidar_scan := 0, prev_lidar_scan := 1, io := [] }

/-- The boot globals with the session placed in state `st`. -/
def state_in (st : lidar_state_t) : State := { boot_state with cur_lidar_state := st }

/-- A Running state in which `acq_lidar_scan` and `prev_lidar_scan` hold the same
pointer value, as they do while neither has been assigned (`lidar.c` gives both
the same initial value). -/
def state_one_scan : State := { state_in S_LIDAR_RUNNING with prev_lidar_scan := 0 }

/-- Receive buffers all zero, DMA writing buffer 0 (so the handler reads buffer 1),
pose at the origin with heading 0, the array `lidar_rxbuf` at the start of the
on-chip RAM (0x20000000). -/
def hw_idle : Hw :=
  { lidar_rxbuf := fun _ _ => 0, dma_ct := false, cur_pos := ⟨0, 0, 0⟩,
    lidar_rxbuf_addr := 536870912 }

/-- A hardware view whose settled packet buffer holds the bytes `bs`, at pose `p`. -/
def hw_packet (bs : List Nat) (p : pos_t) : Hw :=
  { lidar_rxbuf := fun _ i => Fin.ofNat (bs.getD i.val 0), dma_ct := false, cur_pos := p,
    lidar_rxbuf_addr := 536870912 }

/-- Constants for concrete evaluation: `ANG_1PER16_DEG = 2^32/5760`, a 4096-entry
Q15 sine table indexed by the top 12 bits of the angle (`SIN_LUT_SHIFT = 20`), of
which only the entries at 0 (sin 0 = 0) and 1024 (sin 90° = 32767) are given. -/
def ref_tables : Tables :=
  { sin_lut := fun i => if i = 1024 then 32767 else 0,
    ANG_1PER16_DEG := 745654,
    SIN_LUT_SHIFT := 20 }

/-- Thresholds for concrete evaluation (the macros are not part of `lidar.c`). -/
def ref_ignore_len : IgnoreLen := { LIDAR_IGNORE_LEN := 380, LIDAR_IGNORE_LEN_FRONT := 200 }

/-- A reference revolution with one near return, 100 mm at packet 0 sample 0;
every other sample is at 5000 mm. -/
def ref_rev : Nat → Nat → Nat := fun i o => if i = 0 ∧ o = 0 then 100 else 5000

/-- The packet passes the checksum and error-flag test and its slot index is in
range: a good packet. -/
def good_packet (e : Hw) : Prop :=
  ¬ chk_fails e ∧ ¬ has_error_bit (pkt e 0) ∧ slot_of e ≤ 719

/-- One period of a stream with fault rate 1/20: the packet `f` followed by 19
copies of the packet `g`. -/
def fault_cycle (f g : Hw) : List Hw := f :: List.replicate 19 g

/-- The first `n` periods of the periodic stream `f g^19 f g^19 ...`. -/
def fault_stream (f g : Hw) : Nat → List Hw
  | 0 => []
  | n + 1 => fault_cycle f g ++ fault_stream f g n

/-- The value is representable as an `int32_t`. -/
def fits_int32 (v : Int) : Prop := -2147483648 ≤ v ∧ v ≤ 2147483647

/-! ## Theorems -/

/-- C1: for every session state and every pair (fps, smp) outside [1,5] x [1,3],
`lidar_on` returns the state unchanged: `cur_lidar_state`, `lidar_fps`, `lidar_smp`
and the effect log (so no `LIDAR_ENA`) are what they were. -/
theorem lidar_on_rejects (s : State) (fps smp : Int)
    (h : fps < 1 ∨ fps > 5 ∨ smp < 1 ∨ smp > 3) :
    lidar_on fps smp s = s := by
  unfold lidar_on
  rw [if_pos h]

/-- Witness of C1: from the boot state, the request (fps, smp) = (6, 2). -/
theorem lidar_on_rejects_witness : lidar_on 6 2 boot_state = boot_state :=
  lidar_on_rejects boot_state 6 2 (Or.inr (Or.inl (by decide)))

/-! ### Event sequences -/

theorem run_append (T : Tables) (l1 l2 : List Event) : ∀ s, run T s (l1 ++ l2) = run T (run T s l1) l2 := by
  induction l1 with
  | nil => intro s; rfl
  | cons a l ih => intro s; exact ih _

theorem states_along_append (T : Tables) (l1 l2 : List Event) : ∀ s,
    states_along T s (l1 ++ l2) = states_along T s l1 ++ states_along T (run T s l1) l2 := by
  induction l1 with
  | nil => intro s; rfl
  | cons a l ih =>
    intro s
    show _ :: states_along T (step T s a) (l ++ l2) = _
    rw [ih]; rfl

theorem ticks_waitpowered (T : Tables) (n : Nat) : ∀ s : State,
    s.cur_lidar_state = S_LIDAR_WAITPOWERED → s.powerwait_cnt + n ≤ 2000 →
    run T s (List.replicate n Event.tick) = { s with powerwait_cnt := s.powerwait_cnt + n } ∧
    states_along T s (List.replicate n Event.tick) = List.replicate n S_LIDAR_WAITPOWERED := by
  induction n with
  | zero => intro s _ _; simp [run, states_along]
  | succ n ih =>
    intro s hs hc
    have hstep : step T s Event.tick = { s with powerwait_cnt := s.powerwait_cnt + 1 } := by
      simp only [step, lidar_fsm, hs]
      rw [if_neg (by push_cast at hc; omega)]
    obtain ⟨h1, h2⟩ := ih { s with powerwait_cnt := s.powerwait_cnt + 1 } hs
      (by show s.powerwait_cnt + 1 + (n : Int) ≤ 2000; push_cast at hc; omega)
    refine ⟨?_, ?_⟩
    · show run T (step T s Event.tick) _ = _
      rw [hstep, h1]
      simp only [State.mk.injEq, true_and, and_true]
      push_cast; ring
    · show _ :: states_along T (step T s Event.tick) _ = _
      rw [hstep, h2]
      simp only [hs, List.replicate_succ]

theorem ticks_poll (T : Tables) (n : Nat) : ∀ s : State,
    (s.cur_lidar_state = S_LIDAR_PRECONF_WAIT_READY ∨ s.cur_lidar_state = S_LIDAR_WAIT_READY) →
    (n : Int) < s.wait_ready_poll_cnt →
    run T s (List.replicate n Event.tick) =
      { s with wait_ready_poll_cnt := s.wait_ready_poll_cnt - n } ∧
    states_along T s (List.replicate n Event.tick) = List.replicate n s.cur_lidar_state := by
  induction n with
  | zero => intro s _ _; simp [run, states_along]
  | succ n ih =>
    intro s hs hc
    have hstep : step T s Event.tick =
        { s with wait_ready_poll_cnt := s.wait_ready_poll_cnt - 1 } := by
      rcases hs with hs | hs <;>
      · simp only [step, lidar_fsm, hs]
        rw [if_neg (by push_cast at hc; omega)]
    obtain ⟨h1, h2⟩ := ih { s with wait_ready_poll_cnt := s.wait_ready_poll_cnt - 1 } hs
      (by show (n : Int) < s.wait_ready_poll_cnt - 1; push_cast at hc; omega)
    refine ⟨?_, ?_⟩
    · show run T (step T s Event.tick) _ = _
      rw [hstep, h1]
      simp only [State.mk.injEq, true_and, and_true]
      push_cast; ring
    · show _ :: states_along T (step T s Event.tick) _ = _
      rw [hstep, h2]
      simp only [List.replicate_succ]

theorem at_on (T : Tables) (s : State) (fps smp : Int)
    (hs : s.cur_lidar_state = S_LIDAR_OFF)
    (hf1 : 1 ≤ fps) (hf5 : fps ≤ 5) (hm1 : 1 ≤ smp) (hm3 : smp ≤ 3) :
    step T s (Event.on fps smp) =
      { s with lidar_fps := fps, lidar_smp := smp, io := s.io ++ [Effect.lidar_ena],
               cur_lidar_state := S_LIDAR_WAITPOWERED } := by
  simp only [step, lidar_on]
  rw [if_neg (by omega), if_neg (by simp [hs])]

theorem tick_settle (T : Tables) (s : State) (hs : s.cur_lidar_state = S_LIDAR_WAITPOWERED)
    (hc : s.powerwait_cnt = 2000) :
    step T s Event.tick =
      { s with powerwait_cnt := 0, wait_ready_poll_cnt := 1000,
               cur_lidar_state := S_LIDAR_PRECONF_WAIT_READY } := by
  simp only [step, lidar_fsm, hs, hc]
  rw [if_pos (by norm_num)]

theorem tick_fire (T : Tables) (s : State)
    (hs : s.cur_lidar_state = S_LIDAR_PRECONF_WAIT_READY ∨ s.cur_lidar_state = S_LIDAR_WAIT_READY)
    (hc : s.wait_ready_poll_cnt = 1) :
    (step T s Event.tick).cur_lidar_state = s.cur_lidar_state ∧
    (step T s Event.tick).lidar_fps = s.lidar_fps ∧
    (step T s Event.tick).lidar_smp = s.lidar_smp ∧
    (step T s Event.tick).io = s.io ++ [Effect.send_cmd [77, 90, 10] 4] := by
  rcases hs with hs | hs <;>
  · simp only [step, lidar_fsm, hs, hc]
    rw [if_pos (by norm_num)]
    simp [lidar_send_cmd, store8, List.range_succ]

theorem dedup_adj_run (a : lidar_state_t) (n : Nat) (l : List lidar_state_t) :
    dedup_adj (a :: (List.replicate n a ++ l)) = dedup_adj (a :: l) := by
  induction n with
  | zero => rfl
  | succ n ih =>
    rw [List.replicate_succ, List.cons_append]
    simp only [dedup_adj, if_true]
    exact ih

theorem dedup_adj_cons_eq (a : lidar_state_t) (l : List lidar_state_t) :
    dedup_adj (a :: a :: l) = dedup_adj (a :: l) := by
  simp only [dedup_adj, if_true]

theorem dedup_adj_cons_ne (a b : lidar_state_t) (l : List lidar_state_t) (h : a ≠ b) :
    dedup_adj (a :: b :: l) = a :: dedup_adj (b :: l) := by
  simp only [dedup_adj, if_neg h]

theorem stabilized_test_false (e : Hw) :
    ¬ (rx e 0 = 77 ∧ rx e 1 = 90 ∧ rx e 2 = 48 ∧ rx e 3 = 48) := by
  rintro ⟨h0, h1, -⟩
  simp only [rx, Fin.val_zero, Fin.val_one] at h0 h1
  omega

theorem conf1_test_false (e : Hw) (f : Int) :
    ¬ (rx e 0 = 77 ∧ rx e 1 = 83 ∧ rx e 2 = 48 ∧ rx e 3 = 48 + f ∧ rx e 4 = 10 ∧
       rx e 5 = 48 ∧ rx e 6 = 48 ∧ rx e 7 = 80 ∧ rx e 8 = 10) := by
  rintro ⟨h0, h1, -⟩
  simp only [rx, Fin.val_zero, Fin.val_one] at h0 h1
  omega

theorem conf2_test_false (e : Hw) (f : Int) :
    ¬ (rx e 0 = 76 ∧ rx e 1 = 82 ∧ rx e 2 = 48 ∧ rx e 3 = 48 + f ∧ rx e 4 = 10 ∧
       rx e 5 = 48 ∧ rx e 6 = 48 ∧ rx e 7 = 80 ∧ rx e 8 = 10) := by
  rintro ⟨h0, h1, -⟩
  simp only [rx, Fin.val_zero, Fin.val_one] at h0 h1
  omega

theorem start_ack_test_false (e : Hw) :
    ¬ (rx e 0 = 68 ∧ rx e 1 = 83 ∧ rx e 2 = 48 ∧ rx e 3 = 48 ∧ rx e 4 = 80) := by
  rintro ⟨h0, h1, -⟩
  simp only [rx, Fin.val_zero, Fin.val_one] at h0 h1
  omega

/-- In PreconfWaitReady every completion event takes the poll-again branch. -/
theorem rx_in_preconf (T : Tables) (s : State) (e : Hw)
    (hs : s.cur_lidar_state = S_LIDAR_PRECONF_WAIT_READY) :
    lidar_rx_done_inthandler T e s = { s with wait_ready_poll_cnt := 100 } := by
  simp only [lidar_rx_done_inthandler, hs]
  rw [if_neg (stabilized_test_false e)]

/-- In WaitReady every completion event takes the poll-again branch. -/
theorem rx_in_wait_ready (T : Tables) (s : State) (e : Hw)
    (hs : s.cur_lidar_state = S_LIDAR_WAIT_READY) :
    lidar_rx_done_inthandler T e s = { s with wait_ready_poll_cnt := 100 } := by
  simp only [lidar_rx_done_inthandler, hs]
  rw [if_neg (stabilized_test_false e)]

/-- In Conf1, Conf2 and WaitStartAck every completion event takes the
unexpected-reply branch. -/
theorem rx_in_config_step (T : Tables) (s : State) (e : Hw)
    (hs : s.cur_lidar_state = S_LIDAR_CONF1 ∨ s.cur_lidar_state = S_LIDAR_CONF2 ∨
      s.cur_lidar_state = S_LIDAR_WAIT_START_ACK) :
    lidar_rx_done_inthandler T e s = { s with cur_lidar_state := S_LIDAR_ERROR } := by
  rcases hs with hs | hs | hs
  · simp only [lidar_rx_done_inthandler, hs]
    rw [if_neg (conf1_test_false e _)]
  · simp only [lidar_rx_done_inthandler, hs]
    rw [if_neg (conf2_test_false e _)]
  · simp only [lidar_rx_done_inthandler, hs]
    rw [if_neg (start_ack_test_false e)]

theorem run_cons (T : Tables) (s : State) (ev : Event) (evs : List Event) :
    run T s (ev :: evs) = run T (step T s ev) evs := rfl

theorem states_along_cons (T : Tables) (s : State) (ev : Event) (evs : List Event) :
    states_along T s (ev :: evs) =
      (step T s ev).cur_lidar_state :: states_along T (step T s ev) evs := rfl

theorem step_rx (T : Tables) (s : State) (e : Hw) :
    step T s (Event.rx_done e) = lidar_rx_done_inthandler T e s := rfl

theorem start_script_eq (fps smp : Int) (e0 : Hw) (b5 : Nat) :
    start_script fps smp e0 b5 =
      Event.on fps smp :: (List.replicate 2000 Event.tick ++ Event.tick ::
        (List.replicate 999 Event.tick ++ Event.tick ::
          Event.rx_done (with_reply e0 [77, 90, 48, 48]) ::
          Event.rx_done (with_reply e0 [77, 83, 48, 48 + fps.toNat, 10, 48, 48, 80, 10]) ::
          Event.rx_done (with_reply e0 [76, 82, 48, 48 + smp.toNat, 10, 48, 48, 80, 10]) ::
          (List.replicate 999 Event.tick ++ Event.tick ::
            Event.rx_done (with_reply e0 [77, 90, 48, 48]) ::
            [Event.rx_done (with_reply e0 [68, 83, 48, 48, 80, b5])]))) := by
  unfold start_script
  rw [show (2001 : Nat) = 2000 + 1 from rfl, show (1000 : Nat) = 999 + 1 from rfl]
  rw [List.replicate_succ' 2000, List.replicate_succ' 999]
  simp only [List.append_assoc, List.cons_append, List.nil_append,
    List.singleton_append]

theorem dedup_adj_all (a : lidar_state_t) : ∀ l : List lidar_state_t,
    (∀ x ∈ l, x = a) → dedup_adj (a :: l) = [a] := by
  intro l
  induction l with
  | nil => intro _; rfl
  | cons b l ih =>
    intro h
    rw [h b (List.mem_cons_self _ _), dedup_adj_cons_eq]
    exact ih (fun x hx => h x (List.mem_cons_of_mem _ hx))

theorem preconf_step (T : Tables) (s : State) (ev : Event)
    (hev : ev = Event.tick ∨ ∃ e, ev = Event.rx_done e)
    (hs : s.cur_lidar_state = S_LIDAR_PRECONF_WAIT_READY) :
    (step T s ev).cur_lidar_state = S_LIDAR_PRECONF_WAIT_READY ∧
    (step T s ev).io.count Effect.start_acq = s.io.count Effect.start_acq := by
  rcases hev with h | ⟨e, h⟩
  · rw [h]
    simp only [step, lidar_fsm, hs]
    split_ifs
    · simp [lidar_send_cmd, List.count_append]
    · exact ⟨rfl, rfl⟩
  · rw [h, step_rx, rx_in_preconf T s e hs]
    exact ⟨hs, rfl⟩

/-- Once in PreconfWaitReady, no sequence of ticks and completion events leaves it or
calls `lidar_start_acq`. -/
theorem preconf_absorbs (T : Tables) : ∀ (evs : List Event) (s : State),
    (∀ ev ∈ evs, ev = Event.tick ∨ ∃ e, ev = Event.rx_done e) →
    s.cur_lidar_state = S_LIDAR_PRECONF_WAIT_READY →
    (run T s evs).cur_lidar_state = S_LIDAR_PRECONF_WAIT_READY ∧
    (∀ x ∈ states_along T s evs, x = S_LIDAR_PRECONF_WAIT_READY) ∧
    (run T s evs).io.count Effect.start_acq = s.io.count Effect.start_acq := by
  intro evs
  induction evs with
  | nil =>
    intro s _ hs
    exact ⟨hs, fun x hx => absurd hx (List.not_mem_nil x), rfl⟩
  | cons ev evs ih =>
    intro s hev hs
    obtain ⟨h1, h2⟩ := preconf_step T s ev (hev ev (List.mem_cons_self _ _)) hs
    obtain ⟨k1, k2, k3⟩ := ih (step T s ev) (fun x hx => hev x (List.mem_cons_of_mem _ hx)) h1
    rw [run_cons, states_along_cons]
    refine ⟨k1, fun x hx => ?_, by rw [k3, h2]⟩
    rcases List.mem_cons.mp hx with h | h
    · rw [h, h1]
    · exact k2 x h

/-- The scripted start-up run, from any Off state with settle counter 0 and any
address of the receive buffers: the session reaches PreconfWaitReady and stays
there, and `lidar_start_acq` is not called. -/
theorem scripted_start_stuck (T : Tables) (s : State) (e0 : Hw) (b5 : Nat)
    (fps smp : Int)
    (hs : s.cur_lidar_state = S_LIDAR_OFF) (hc : s.powerwait_cnt = 0)
    (hf1 : 1 ≤ fps) (hf5 : fps ≤ 5) (hm1 : 1 ≤ smp) (hm3 : smp ≤ 3) :
    dedup_adj (states_along T s (start_script fps smp e0 b5)) =
      [S_LIDAR_WAITPOWERED, S_LIDAR_PRECONF_WAIT_READY] ∧
    (run T s (start_script fps smp e0 b5)).cur_lidar_state = S_LIDAR_PRECONF_WAIT_READY ∧
    (run T s (start_script fps smp e0 b5)).io.count Effect.start_acq =
      s.io.count Effect.start_acq := by
  rw [start_script_eq, states_along_cons, run_cons]
  -- lidar_on
  have k0 : (step T s (Event.on fps smp)).cur_lidar_state = S_LIDAR_WAITPOWERED ∧
      (step T s (Event.on fps smp)).powerwait_cnt = 0 ∧
      (step T s (Event.on fps smp)).lidar_fps = fps ∧
      (step T s (Event.on fps smp)).lidar_smp = smp ∧
      (step T s (Event.on fps smp)).io = s.io ++ [Effect.lidar_ena] := by
    rw [at_on T s fps smp hs hf1 hf5 hm1 hm3]; exact ⟨rfl, hc, rfl, rfl, rfl⟩
  generalize step T s (Event.on fps smp) = a0 at k0 ⊢
  obtain ⟨c0, p0, f0, m0, i0⟩ := k0
  -- 2000 settle ticks
  rw [c0]
  obtain ⟨h1, l1⟩ := ticks_waitpowered T 2000 a0 c0 (by rw [p0]; norm_num)
  rw [states_along_append, run_append, l1, states_along_cons, run_cons]
  have k1 : (run T a0 (List.replicate 2000 Event.tick)).cur_lidar_state = S_LIDAR_WAITPOWERED ∧
      (run T a0 (List.replicate 2000 Event.tick)).powerwait_cnt = 2000 ∧
      (run T a0 (List.replicate 2000 Event.tick)).lidar_fps = fps ∧
      (run T a0 (List.replicate 2000 Event.tick)).lidar_smp = smp ∧
      (run T a0 (List.replicate 2000 Event.tick)).io = s.io ++ [Effect.lidar_ena] := by
    rw [h1]; exact ⟨c0, by simp [p0], f0, m0, i0⟩
  clear h1 l1
  generalize run T a0 (List.replicate 2000 Event.tick) = a1 at k1 ⊢
  obtain ⟨c1, p1, f1, m1, i1⟩ := k1
  -- tick 2001
  have k2 : (step T a1 Event.tick).cur_lidar_state = S_LIDAR_PRECONF_WAIT_READY ∧
      (step T a1 Event.tick).wait_ready_poll_cnt = 1000 ∧
      (step T a1 Event.tick).lidar_fps = fps ∧
      (step T a1 Event.tick).lidar_smp = smp ∧
      (step T a1 Event.tick).io = s.io ++ [Effect.lidar_ena] := by
    rw [tick_settle T a1 c1 p1]; exact ⟨rfl, rfl, f1, m1, i1⟩
  generalize step T a1 Event.tick = a2 at k2 ⊢
  obtain ⟨c2, p2, f2, m2, i2⟩ := k2
  have hcount : a2.io.count Effect.start_acq = s.io.count Effect.start_acq := by
    rw [i2]; simp [List.count_append]
  obtain ⟨r1, r2, r3⟩ := preconf_absorbs T
    (List.replicate 999 Event.tick ++ Event.tick ::
      Event.rx_done (with_reply e0 [77, 90, 48, 48]) ::
      Event.rx_done (with_reply e0 [77, 83, 48, 48 + fps.toNat, 10, 48, 48, 80, 10]) ::
      Event.rx_done (with_reply e0 [76, 82, 48, 48 + smp.toNat, 10, 48, 48, 80, 10]) ::
      (List.replicate 999 Event.tick ++ Event.tick ::
        Event.rx_done (with_reply e0 [77, 90, 48, 48]) ::
        [Event.rx_done (with_reply e0 [68, 83, 48, 48, 80, b5])])) a2
    (by
      intro ev hev
      simp only [List.mem_append, List.mem_cons, List.mem_replicate, List.mem_singleton,
        List.not_mem_nil, or_false] at hev
      rcases hev with ⟨-, h⟩ | h | h | h | h | ⟨-, h⟩ | h | h | h
      · exact Or.inl h
      · exact Or.inl h
      · exact Or.inr ⟨_, h⟩
      · exact Or.inr ⟨_, h⟩
      · exact Or.inr ⟨_, h⟩
      · exact Or.inl h
      · exact Or.inl h
      · exact Or.inr ⟨_, h⟩
      · exact Or.inr ⟨_, h⟩) c2
  refine ⟨?_, r1, by rw [r3, hcount]⟩
  rw [c2, dedup_adj_run, dedup_adj_cons_ne _ _ _ (by decide), dedup_adj_all _ _ r2]

/-- C2 fails on the code: from the boot state (Off, settle counter 0) the scripted
start-up run with fps = smp = 2 reaches PreconfWaitReady and never leaves it: the
states visited are WaitPowered and PreconfWaitReady only, the run ends in
PreconfWaitReady, and `lidar_start_acq` is not called.  The reply "MZ00" is not
recognised because the test compares the addresses of the rows of `lidar_rxbuf`
with the characters. -/
theorem scripted_start_stays_in_preconf :
    boot_state.cur_lidar_state = S_LIDAR_OFF ∧ boot_state.powerwait_cnt = 0 ∧
    dedup_adj (states_along ref_tables boot_state (start_script 2 2 hw_idle 10)) =
      [S_LIDAR_WAITPOWERED, S_LIDAR_PRECONF_WAIT_READY] ∧
    (run ref_tables boot_state (start_script 2 2 hw_idle 10)).cur_lidar_state =
      S_LIDAR_PRECONF_WAIT_READY ∧
    (run ref_tables boot_state (start_script 2 2 hw_idle 10)).io.count Effect.start_acq = 0 :=
  ⟨rfl, rfl,
   (scripted_start_stuck ref_tables boot_state hw_idle 10 2 2 rfl rfl (by decide) (by decide)
     (by decide) (by decide)).1,
   (scripted_start_stuck ref_tables boot_state hw_idle 10 2 2 rfl rfl (by decide) (by decide)
     (by decide) (by decide)).2.1,
   (scripted_start_stuck ref_tables boot_state hw_idle 10 2 2 rfl rfl (by decide) (by decide)
     (by decide) (by decide)).2.2⟩

/-- C3: at Conf1, Conf2 and WaitStartAck, a reply that differs in at least one byte
from the reply expected at that step, over all the bytes requested from the
transport (9, 9 and 6), sets the session state to Error.  (The handler takes the
unexpected-reply branch for every reply, `rx_in_config_step`.) -/
theorem config_mismatch_gives_error (T : Tables) (s : State) (e : Hw)
    (hs : s.cur_lidar_state = S_LIDAR_CONF1 ∨ s.cur_lidar_state = S_LIDAR_CONF2 ∨
      s.cur_lidar_state = S_LIDAR_WAIT_START_ACK)
    (_hne : reply_bytes e (requested_len s.cur_lidar_state) ≠ expected_reply s) :
    (lidar_rx_done_inthandler T e s).cur_lidar_state = S_LIDAR_ERROR := by
  rw [rx_in_config_step T s e hs]

/-- Witness of C3: in Conf1 with fps 2, the reply "MS03\n00P\n". -/
theorem config_mismatch_witness :
    (lidar_rx_done_inthandler ref_tables
      (with_reply hw_idle [77, 83, 48, 51, 10, 48, 48, 80, 10])
      (state_in S_LIDAR_CONF1)).cur_lidar_state = S_LIDAR_ERROR :=
  config_mismatch_gives_error ref_tables (state_in S_LIDAR_CONF1)
    (with_reply hw_idle [77, 83, 48, 51, 10, 48, 48, 80, 10]) (Or.inl rfl) (by decide)

/-! ### Running branch: faulty packets -/

set_option maxRecDepth 100000 in
theorem error_bits_fin (b : Fin 256) :
    (b.val &&& 254 ≠ 0) ↔ ∃ i : Fin 8, 1 ≤ i.val ∧ b.val.testBit i.val = true := by
  revert b; decide

theorem error_bits_iff (b : Nat) (hb : b < 256) : (b &&& 254 ≠ 0) ↔ has_error_bit b := by
  have h := error_bits_fin ⟨b, hb⟩
  simp only at h
  rw [h]
  constructor
  · rintro ⟨i, h1, h2⟩
    exact ⟨i.val, h1, by have := i.isLt; omega, h2⟩
  · rintro ⟨i, h1, h2, h3⟩
    exact ⟨⟨i, by omega⟩, h1, h3⟩

theorem pkt_lt (e : Hw) (i : Fin 16) : pkt e i < 256 := (e.lidar_rxbuf (buf_idx e) i).isLt

theorem fault_cond_iff (e : Hw) :
    (pkt_chk e ≠ pkt e 6 ∨ (pkt e 0 &&& 254) ≠ 0) ↔ (chk_fails e ∨ has_error_bit (pkt e 0)) := by
  rw [error_bits_iff _ (pkt_lt e 0)]
  unfold chk_fails pkt_chk
  constructor
  · rintro (h | h)
    · exact Or.inl (fun h2 => h h2.symm)
    · exact Or.inr h
  · rintro (h | h)
    · exact Or.inl (fun h2 => h h2.symm)
    · exact Or.inr h

/-- C4: in Running, a packet that fails the checksum or carries an error bit adds
exactly 20 to `chk_err_cnt`; if the new value exceeds 100 the state becomes Error
and `lidar_error_flags` is the packet's status byte, otherwise the state stays
Running; in both cases both scans (samples and pose snapshots) and both role
pointers are unchanged. -/
theorem running_fault_adds_penalty (T : Tables) (s : State) (e : Hw)
    (hs : s.cur_lidar_state = S_LIDAR_RUNNING)
    (hbad : chk_fails e ∨ has_error_bit (pkt e 0)) :
    (lidar_rx_done_inthandler T e s).chk_err_cnt = s.chk_err_cnt + 20 ∧
    (100 < s.chk_err_cnt + 20 →
      (lidar_rx_done_inthandler T e s).cur_lidar_state = S_LIDAR_ERROR ∧
      (lidar_rx_done_inthandler T e s).lidar_error_flags = pkt e 0) ∧
    (s.chk_err_cnt + 20 ≤ 100 →
      (lidar_rx_done_inthandler T e s).cur_lidar_state = S_LIDAR_RUNNING) ∧
    (lidar_rx_done_inthandler T e s).lidar_scans = s.lidar_scans ∧
    (lidar_rx_done_inthandler T e s).acq_lidar_scan = s.acq_lidar_scan ∧
    (lidar_rx_done_inthandler T e s).prev_lidar_scan = s.prev_lidar_scan := by
  have hc := (fault_cond_iff e).mpr hbad
  simp only [lidar_rx_done_inthandler, hs, rx_running]
  rw [if_pos hc]
  by_cases h : s.chk_err_cnt + 20 > 100
  · rw [if_pos h]
    refine ⟨rfl, fun _ => ⟨rfl, rfl⟩, fun h2 => absurd h2 (by omega), rfl, rfl, rfl⟩
  · rw [if_neg h]
    refine ⟨rfl, fun h2 => absurd h2 h, fun _ => rfl, rfl, rfl, rfl⟩


/-- Witness of C4: the all-zero packet with checksum byte 1, at penalty 0. -/
theorem running_fault_witness :
    (lidar_rx_done_inthandler ref_tables (hw_packet [0, 0, 0, 0, 0, 0, 1] ⟨0, 0, 0⟩)
      (state_in S_LIDAR_RUNNING)).chk_err_cnt = (state_in S_LIDAR_RUNNING).chk_err_cnt + 20 :=
  (running_fault_adds_penalty ref_tables (state_in S_LIDAR_RUNNING)
    (hw_packet [0, 0, 0, 0, 0, 0, 1] ⟨0, 0, 0⟩) rfl (Or.inl (by decide))).1

theorem bad_packets_run (T : Tables) : ∀ (es : List Hw) (s : State),
    s.cur_lidar_state = S_LIDAR_RUNNING → (∀ e ∈ es, chk_fails e) →
    s.chk_err_cnt + 20 * (es.length : Int) ≤ 100 →
    (run T s (es.map Event.rx_done)).cur_lidar_state = S_LIDAR_RUNNING ∧
    (run T s (es.map Event.rx_done)).chk_err_cnt = s.chk_err_cnt + 20 * (es.length : Int) := by
  intro es
  induction es with
  | nil => intro s hs _ _; exact ⟨hs, by simp [run]⟩
  | cons e es ih =>
    intro s hs hbad hle
    have hc := (fault_cond_iff e).mpr (Or.inl (hbad e (List.mem_cons_self _ _)))
    simp only [List.length_cons, Nat.cast_add, Nat.cast_one] at hle
    have hstep : step T s (Event.rx_done e) = { s with chk_err_cnt := s.chk_err_cnt + 20 } := by
      simp only [step, lidar_rx_done_inthandler, hs, rx_running]
      rw [if_pos hc, if_neg (by show ¬ (s.chk_err_cnt + 20 > 100); omega)]
    obtain ⟨h1, h2⟩ := ih { s with chk_err_cnt := s.chk_err_cnt + 20 } hs
      (fun x hx => hbad x (List.mem_cons_of_mem _ hx))
      (by show s.chk_err_cnt + 20 + 20 * (es.length : Int) ≤ 100; omega)
    simp only [List.map_cons, run_cons, hstep, List.length_cons, Nat.cast_add, Nat.cast_one]
    refine ⟨h1, ?_⟩
    rw [h2]
    show s.chk_err_cnt + 20 + 20 * (es.length : Int) = _
    ring

/-- C5: from Running with penalty 0, five consecutive packets that fail the
checksum leave the session in Running, and a sixth consecutive failing packet
moves it to Error. -/
theorem five_faults_survive_sixth_fails (T : Tables) (s : State) (es : List Hw) (e6 : Hw)
    (hs : s.cur_lidar_state = S_LIDAR_RUNNING) (h0 : s.chk_err_cnt = 0)
    (hlen : es.length = 5) (hbad : ∀ e ∈ es, chk_fails e) (h6 : chk_fails e6) :
    (run T s (es.map Event.rx_done)).cur_lidar_state = S_LIDAR_RUNNING ∧
    (run T s ((es ++ [e6]).map Event.rx_done)).cur_lidar_state = S_LIDAR_ERROR := by
  obtain ⟨h1, h2⟩ := bad_packets_run T es s hs hbad (by rw [h0, hlen]; norm_num)
  refine ⟨h1, ?_⟩
  rw [List.map_append, run_append]
  rw [h0, hlen] at h2
  have hc := (fault_cond_iff e6).mpr (Or.inl h6)
  generalize run T s (es.map Event.rx_done) = a at h1 h2
  simp only [List.map_cons, List.map_nil, run, step, lidar_rx_done_inthandler, h1, rx_running]
  rw [if_pos hc, if_pos (by show a.chk_err_cnt + 20 > 100; rw [h2]; norm_num)]

/-- Witness of C5: six copies of the all-zero packet with checksum byte 1. -/
theorem five_faults_witness :
    (run ref_tables (state_in S_LIDAR_RUNNING)
      ((List.replicate 5 (hw_packet [0, 0, 0, 0, 0, 0, 1] ⟨0, 0, 0⟩)).map
        Event.rx_done)).cur_lidar_state = S_LIDAR_RUNNING ∧
    (run ref_tables (state_in S_LIDAR_RUNNING)
      ((List.replicate 5 (hw_packet [0, 0, 0, 0, 0, 0, 1] ⟨0, 0, 0⟩) ++
        [hw_packet [0, 0, 0, 0, 0, 0, 1] ⟨0, 0, 0⟩]).map
        Event.rx_done)).cur_lidar_state = S_LIDAR_ERROR :=
  five_faults_survive_sixth_fails ref_tables (state_in S_LIDAR_RUNNING)
    (List.replicate 5 (hw_packet [0, 0, 0, 0, 0, 0, 1] ⟨0, 0, 0⟩))
    (hw_packet [0, 0, 0, 0, 0, 0, 1] ⟨0, 0, 0⟩) rfl rfl rfl
    (fun e he => by rw [List.eq_of_mem_replicate he]; decide) (by decide)

/-! ### Running branch: packets that pass the checksum and error-flag test -/

theorem running_good (T : Tables) (s : State) (e : Hw)
    (hs : s.cur_lidar_state = S_LIDAR_RUNNING)
    (hchk : ¬ chk_fails e) (herr : ¬ has_error_bit (pkt e 0)) :
    lidar_rx_done_inthandler T e s = rx_good T e s := by
  have hc : ¬ (pkt_chk e ≠ pkt e 6 ∨ (pkt e 0 &&& 254) ≠ 0) := by
    rw [fault_cond_iff]; exact fun h => h.elim hchk herr
  simp only [lidar_rx_done_inthandler, hs, rx_running]
  rw [if_neg hc]

theorem no_error_bit_zero : ¬ has_error_bit 0 := by
  rw [← error_bits_iff 0 (by norm_num)]; decide

theorem no_error_bit_one : ¬ has_error_bit 1 := by
  rw [← error_bits_iff 1 (by norm_num)]; decide

theorem pkt_len_lt (e : Hw) : pkt_len e < 65536 := by
  unfold pkt_len
  have h4 := pkt_lt e 4
  have h3 := pkt_lt e 3
  have : pkt e 4 <<< 8 < 2 ^ 16 := by
    rw [Nat.shiftLeft_eq]; omega
  exact Nat.or_lt_two_pow this (by omega)

theorem len_mm_eq (e : Hw) : to_int32 ((pkt_len e : Int) * 10) = 10 * (pkt_len e : Int) := by
  have := pkt_len_lt e
  unfold to_int32
  omega

/-- The frame of `rx_store`: state, role pointers and pose snapshots are kept. -/
theorem rx_store_frame (T : Tables) (e : Hw) (s : State) :
    (rx_store T e s).cur_lidar_state = s.cur_lidar_state ∧
    (rx_store T e s).acq_lidar_scan = s.acq_lidar_scan ∧
    (rx_store T e s).prev_lidar_scan = s.prev_lidar_scan ∧
    (∀ k, ((rx_store T e s).lidar_scans k).pos_at_start = (s.lidar_scans k).pos_at_start) ∧
    (∀ k, ((rx_store T e s).lidar_scans k).pos_at_end = (s.lidar_scans k).pos_at_end) := by
  unfold rx_store
  simp only
  split_ifs <;> refine ⟨rfl, rfl, rfl, fun k => ?_, fun k => ?_⟩ <;>
    simp only [upd_scan] <;> split_ifs <;> rfl

/-- The store of `rx_store` for an in-range slot and a length of at least 2 cm. -/
theorem rx_store_point (T : Tables) (e : Hw) (s : State)
    (hslot : slot_of e ≤ 719) (hlen : 2 ≤ pkt_len e) :
    ((rx_store T e s).lidar_scans (rx_store T e s).acq_lidar_scan).scan (slot_of e) =
      { valid := 1,
        x := to_int32 (e.cur_pos.x + lut_mul T (x_idx T e) (10 * (pkt_len e : Int))),
        y := to_int32 (e.cur_pos.y + lut_mul T (y_idx T e) (10 * (pkt_len e : Int))) } := by
  unfold rx_store
  simp only
  rw [if_neg (by unfold slot_of at hslot; omega), if_neg (by omega)]
  simp only [upd_scan, if_true, len_mm_eq, slot_of]

theorem sync_swap_facts (p : pos_t) (s : State) :
    (sync_swap p s).cur_lidar_state = s.cur_lidar_state ∧
    (sync_swap p s).chk_err_cnt = s.chk_err_cnt ∧
    (sync_swap p s).prev_lidar_scan = s.acq_lidar_scan ∧
    (sync_swap p s).acq_lidar_scan = s.prev_lidar_scan ∧
    ((sync_swap p s).lidar_scans s.acq_lidar_scan).pos_at_end = p ∧
    ((sync_swap p s).lidar_scans s.prev_lidar_scan).pos_at_start = p ∧
    (∀ k, ((sync_swap p s).lidar_scans k).scan = (s.lidar_scans k).scan) := by
  refine ⟨rfl, rfl, rfl, rfl, ?_, ?_, fun k => ?_⟩ <;>
    simp only [sync_swap, upd_scan] <;> split_ifs <;> rfl

/-- C6 (as amended): in Running, a packet with valid checksum, no error flag,
slot index at most 719 and length L of at least 2 cm marks its slot of the
acquiring scan valid and stores, in 32-bit arithmetic with h the heading
`ang32` and len_mm = 10 L, x = pose.x + ((sin_lut[(2^30 - h) >> SIN_LUT_SHIFT] *
len_mm) >> 15) and y = pose.y + ((sin_lut[h >> SIN_LUT_SHIFT] * len_mm) >> 15):
x uses the quarter-turn complement (cosine) and y the heading itself (sine).  At
pose (0,0,0) with angle 0 the indices are 2^30 >> SIN_LUT_SHIFT for x and 0 for y. -/
theorem good_packet_stores_point (T : Tables) (s : State) (e : Hw)
    (hs : s.cur_lidar_state = S_LIDAR_RUNNING)
    (hchk : ¬ chk_fails e) (herr : ¬ has_error_bit (pkt e 0))
    (hslot : slot_of e ≤ 719) (hlen : 2 ≤ pkt_len e) :
    ((lidar_rx_done_inthandler T e s).lidar_scans
        (lidar_rx_done_inthandler T e s).acq_lidar_scan).scan (slot_of e) =
      { valid := 1,
        x := to_int32 (e.cur_pos.x + (to_int32 (to_int32 (T.sin_lut (to_int32
              ((to_uint32 (1073741824 - (ang32 T e : Int)) >>> T.SIN_LUT_SHIFT : Nat) : Int))) *
              to_int32 (10 * (pkt_len e : Int)))) >>> 15),
        y := to_int32 (e.cur_pos.y + (to_int32 (to_int32 (T.sin_lut (to_int32
              ((ang32 T e >>> T.SIN_LUT_SHIFT : Nat) : Int))) *
              to_int32 (10 * (pkt_len e : Int)))) >>> 15) } ∧
    (e.cur_pos = ⟨0, 0, 0⟩ → degper16 e = 0 →
      ((lidar_rx_done_inthandler T e s).lidar_scans
        (lidar_rx_done_inthandler T e s).acq_lidar_scan).scan (slot_of e) =
      { valid := 1,
        x := to_int32 ((to_int32 (to_int32 (T.sin_lut (to_int32
              ((1073741824 >>> T.SIN_LUT_SHIFT : Nat) : Int))) *
              to_int32 (10 * (pkt_len e : Int)))) >>> 15),
        y := to_int32 ((to_int32 (to_int32 (T.sin_lut 0) *
              to_int32 (10 * (pkt_len e : Int)))) >>> 15) }) := by
  have key : ((lidar_rx_done_inthandler T e s).lidar_scans
        (lidar_rx_done_inthandler T e s).acq_lidar_scan).scan (slot_of e) =
      { valid := 1,
        x := to_int32 (e.cur_pos.x + lut_mul T (x_idx T e) (10 * (pkt_len e : Int))),
        y := to_int32 (e.cur_pos.y + lut_mul T (y_idx T e) (10 * (pkt_len e : Int))) } := by
    rw [running_good T s e hs hchk herr]
    unfold rx_good
    exact rx_store_point T e _ hslot hlen
  refine ⟨key, fun hp hd => ?_⟩
  rw [key]
  have ha : ang32 T e = 0 := by
    unfold ang32; rw [hp, hd]; simp [to_uint32]
  have hx : x_idx T e = to_int32 ((1073741824 >>> T.SIN_LUT_SHIFT : Nat) : Int) := by
    unfold x_idx; rw [ha]; simp [to_uint32]
  have hy : y_idx T e = 0 := by
    unfold y_idx; rw [ha]; simp [to_int32]
  rw [hx, hy, hp]
  simp only [lut_mul, zero_add]

/-- Witness of C6 (amended): status 0, angle 0, length 100 cm at the origin. -/
theorem good_packet_stores_point_witness :
    ((lidar_rx_done_inthandler ref_tables (hw_packet [0, 0, 0, 100, 0, 0, 100] ⟨0, 0, 0⟩)
      (state_in S_LIDAR_RUNNING)).lidar_scans
        (lidar_rx_done_inthandler ref_tables (hw_packet [0, 0, 0, 100, 0, 0, 100] ⟨0, 0, 0⟩)
          (state_in S_LIDAR_RUNNING)).acq_lidar_scan).scan
        (slot_of (hw_packet [0, 0, 0, 100, 0, 0, 100] ⟨0, 0, 0⟩)) =
      { valid := 1, x := 999, y := 0 } :=
  (good_packet_stores_point ref_tables (state_in S_LIDAR_RUNNING)
    (hw_packet [0, 0, 0, 100, 0, 0, 100] ⟨0, 0, 0⟩) rfl (by decide)
    (by rw [← error_bits_iff _ (pkt_lt _ _)]; decide) (by decide) (by decide)).1.trans
    (by decide)

/-- C6 fails as stated: at pose (0,0,0), angle 0, length 100 cm, with sin_lut[0] = 0
and sin_lut[2^30 >> 20] = 32767, the handler stores (x, y) = (999, 0), while the
claimed formulas give (0, 999). -/
theorem claimed_point_is_transposed :
    ¬ chk_fails (hw_packet [0, 0, 0, 100, 0, 0, 100] ⟨0, 0, 0⟩) ∧
    pkt (hw_packet [0, 0, 0, 100, 0, 0, 100] ⟨0, 0, 0⟩) 0 = 0 ∧
    slot_of (hw_packet [0, 0, 0, 100, 0, 0, 100] ⟨0, 0, 0⟩) = 0 ∧
    pkt_len (hw_packet [0, 0, 0, 100, 0, 0, 100] ⟨0, 0, 0⟩) = 100 ∧
    ((lidar_rx_done_inthandler ref_tables (hw_packet [0, 0, 0, 100, 0, 0, 100] ⟨0, 0, 0⟩)
      (state_in S_LIDAR_RUNNING)).lidar_scans 0).scan 0 = ⟨1, 999, 0⟩ ∧
    claimed_x ref_tables (hw_packet [0, 0, 0, 100, 0, 0, 100] ⟨0, 0, 0⟩) = 0 ∧
    claimed_y ref_tables (hw_packet [0, 0, 0, 100, 0, 0, 100] ⟨0, 0, 0⟩) = 999 := by
  refine ⟨by decide, by decide, by decide, by decide, by decide, by decide, by decide⟩

/-- C7: in Running, a packet with valid checksum, status byte 0, slot index s of at
most 719 and length below 2 sets `valid` to 0 in slot s of the acquiring scan and
leaves that slot's x and y, and every other slot of both scans, unchanged. -/
theorem short_length_invalidates_slot (T : Tables) (s : State) (e : Hw)
    (hs : s.cur_lidar_state = S_LIDAR_RUNNING)
    (hchk : ¬ chk_fails e) (hz : pkt e 0 = 0)
    (hslot : slot_of e ≤ 719) (hlen : pkt_len e < 2) :
    (((lidar_rx_done_inthandler T e s).lidar_scans s.acq_lidar_scan).scan (slot_of e)).valid = 0 ∧
    (((lidar_rx_done_inthandler T e s).lidar_scans s.acq_lidar_scan).scan (slot_of e)).x =
      ((s.lidar_scans s.acq_lidar_scan).scan (slot_of e)).x ∧
    (((lidar_rx_done_inthandler T e s).lidar_scans s.acq_lidar_scan).scan (slot_of e)).y =
      ((s.lidar_scans s.acq_lidar_scan).scan (slot_of e)).y ∧
    (∀ k j, ¬ (k = s.acq_lidar_scan ∧ j = slot_of e) →
      ((lidar_rx_done_inthandler T e s).lidar_scans k).scan j = (s.lidar_scans k).scan j) := by
  rw [running_good T s e hs hchk (by rw [hz]; exact no_error_bit_zero)]
  unfold rx_good
  simp only
  rw [if_neg (by simp [hz])]
  unfold rx_store
  simp only
  rw [if_neg (by unfold slot_of at hslot; omega), if_pos hlen]
  by_cases hc : s.chk_err_cnt ≠ 0
  · rw [if_pos hc]
    simp only [upd_scan, if_true, slot_of]
    refine ⟨trivial, trivial, trivial, fun k j hkj => ?_⟩
    by_cases hk : k = s.acq_lidar_scan
    · rw [if_pos hk]
      simp only
      rw [if_neg (fun hj => hkj ⟨hk, hj⟩)]
    · rw [if_neg hk]
  · rw [if_neg hc]
    simp only [upd_scan, if_true, slot_of]
    refine ⟨trivial, trivial, trivial, fun k j hkj => ?_⟩
    by_cases hk : k = s.acq_lidar_scan
    · rw [if_pos hk]
      simp only
      rw [if_neg (fun hj => hkj ⟨hk, hj⟩)]
    · rw [if_neg hk]

/-- Witness of C7: status 0, angle 0, length 1, checksum 1. -/
theorem short_length_witness :
    (((lidar_rx_done_inthandler ref_tables (hw_packet [0, 0, 0, 1, 0, 0, 1] ⟨0, 0, 0⟩)
      (state_in S_LIDAR_RUNNING)).lidar_scans (state_in S_LIDAR_RUNNING).acq_lidar_scan).scan
      (slot_of (hw_packet [0, 0, 0, 1, 0, 0, 1] ⟨0, 0, 0⟩))).valid = 0 :=
  (short_length_invalidates_slot ref_tables (state_in S_LIDAR_RUNNING)
    (hw_packet [0, 0, 0, 1, 0, 0, 1] ⟨0, 0, 0⟩) rfl (by decide) (by decide) (by decide)
    (by decide)).1

/-- C8: in Running, a packet with valid checksum and status byte 1 swaps the role
pointers once (new finished = old acquiring, new acquiring = old finished); the
newly finished scan's `pos_at_end` and the newly acquiring scan's `pos_at_start`
both equal `cur_pos` as read by the handler. -/
theorem sync_packet_swaps_roles (T : Tables) (s : State) (e : Hw)
    (hs : s.cur_lidar_state = S_LIDAR_RUNNING)
    (hchk : ¬ chk_fails e) (h1 : pkt e 0 = 1) :
    (lidar_rx_done_inthandler T e s).prev_lidar_scan = s.acq_lidar_scan ∧
    (lidar_rx_done_inthandler T e s).acq_lidar_scan = s.prev_lidar_scan ∧
    ((lidar_rx_done_inthandler T e s).lidar_scans
      (lidar_rx_done_inthandler T e s).prev_lidar_scan).pos_at_end = e.cur_pos ∧
    ((lidar_rx_done_inthandler T e s).lidar_scans
      (lidar_rx_done_inthandler T e s).acq_lidar_scan).pos_at_start = e.cur_pos := by
  rw [running_good T s e hs hchk (by rw [h1]; exact no_error_bit_one)]
  unfold rx_good
  simp only
  rw [if_pos (by simp [h1])]
  generalize hs1 : (if s.chk_err_cnt ≠ 0 then { s with chk_err_cnt := s.chk_err_cnt - 1 } else s)
    = s1
  have ha : s1.acq_lidar_scan = s.acq_lidar_scan := by rw [← hs1]; split_ifs <;> rfl
  have hp : s1.prev_lidar_scan = s.prev_lidar_scan := by rw [← hs1]; split_ifs <;> rfl
  obtain ⟨-, fa, fp, fs, fe⟩ := rx_store_frame T e (sync_swap e.cur_pos s1)
  obtain ⟨-, -, gp, ga, ge, gs, -⟩ := sync_swap_facts e.cur_pos s1
  rw [fa, fp, fs, fe, gp, ga, ge, gs, ha, hp]
  exact ⟨rfl, rfl, rfl, rfl⟩

/-- Witness of C8: sync packet at angle 0, length 0, taken at pose (5, 6, 7). -/
theorem sync_packet_witness :
    (lidar_rx_done_inthandler ref_tables (hw_packet [1, 0, 0, 0, 0, 0, 1] ⟨5, 6, 7⟩)
      (state_in S_LIDAR_RUNNING)).prev_lidar_scan = (state_in S_LIDAR_RUNNING).acq_lidar_scan :=
  (sync_packet_swaps_roles ref_tables (state_in S_LIDAR_RUNNING)
    (hw_packet [1, 0, 0, 0, 0, 0, 1] ⟨5, 6, 7⟩) rfl (by decide) (by decide)).1

/-- C9 (as amended): in Running, a packet with valid checksum and no error flag
whose slot index exceeds 719 writes no slot and leaves the session in Running; the
penalty afterwards is 20 more than its decayed value (one less than before when it
was non-zero), so 19 more than before when it was non-zero and 20 more when it was
0; with status byte 0 both scans and both role pointers are unchanged, and with a
non-zero status byte the sync block (snapshots and role swap) has been executed. -/
theorem angle_out_of_range_penalty (T : Tables) (s : State) (e : Hw)
    (hs : s.cur_lidar_state = S_LIDAR_RUNNING)
    (hchk : ¬ chk_fails e) (herr : ¬ has_error_bit (pkt e 0))
    (hslot : 719 < slot_of e) :
    (lidar_rx_done_inthandler T e s).chk_err_cnt = decayed s.chk_err_cnt + 20 ∧
    (s.chk_err_cnt ≠ 0 → (lidar_rx_done_inthandler T e s).chk_err_cnt = s.chk_err_cnt + 19) ∧
    (s.chk_err_cnt = 0 → (lidar_rx_done_inthandler T e s).chk_err_cnt = 20) ∧
    (lidar_rx_done_inthandler T e s).cur_lidar_state = S_LIDAR_RUNNING ∧
    (∀ k j, ((lidar_rx_done_inthandler T e s).lidar_scans k).scan j = (s.lidar_scans k).scan j) ∧
    (pkt e 0 = 0 →
      (lidar_rx_done_inthandler T e s).lidar_scans = s.lidar_scans ∧
      (lidar_rx_done_inthandler T e s).acq_lidar_scan = s.acq_lidar_scan ∧
      (lidar_rx_done_inthandler T e s).prev_lidar_scan = s.prev_lidar_scan) ∧
    (pkt e 0 ≠ 0 →
      (lidar_rx_done_inthandler T e s).prev_lidar_scan = s.acq_lidar_scan ∧
      (lidar_rx_done_inthandler T e s).acq_lidar_scan = s.prev_lidar_scan ∧
      ((lidar_rx_done_inthandler T e s).lidar_scans s.acq_lidar_scan).pos_at_end = e.cur_pos ∧
      ((lidar_rx_done_inthandler T e s).lidar_scans s.prev_lidar_scan).pos_at_start =
        e.cur_pos) := by
  rw [running_good T s e hs hchk herr]
  unfold rx_good rx_store
  simp only
  have hgt : degper16 e >>> 3 > 719 := hslot
  generalize hs1 : (if s.chk_err_cnt ≠ 0 then { s with chk_err_cnt := s.chk_err_cnt - 1 } else s)
    = s1
  have hc1 : s1.chk_err_cnt = decayed s.chk_err_cnt := by
    rw [← hs1]; unfold decayed; split_ifs <;> rfl
  have hst : s1.cur_lidar_state = S_LIDAR_RUNNING := by rw [← hs1]; split_ifs <;> exact hs
  have hsc : s1.lidar_scans = s.lidar_scans := by rw [← hs1]; split_ifs <;> rfl
  have ha : s1.acq_lidar_scan = s.acq_lidar_scan := by rw [← hs1]; split_ifs <;> rfl
  have hp : s1.prev_lidar_scan = s.prev_lidar_scan := by rw [← hs1]; split_ifs <;> rfl
  rw [if_pos hgt]
  obtain ⟨g1, g2, g3, g4, g5, g6, g7⟩ := sync_swap_facts e.cur_pos s1
  have hdec : (s.chk_err_cnt ≠ 0 → decayed s.chk_err_cnt + 20 = s.chk_err_cnt + 19) ∧
      (s.chk_err_cnt = 0 → decayed s.chk_err_cnt + 20 = 20) := by
    unfold decayed
    constructor
    · intro h; rw [if_pos h]; ring
    · intro h; rw [if_neg (by simpa using h), h]; rfl
  by_cases hz : pkt e 0 ≠ 0
  · rw [if_pos hz]
    refine ⟨?_, ?_, ?_, ?_, ?_, fun h => absurd h hz, fun _ => ?_⟩
    · show (sync_swap e.cur_pos s1).chk_err_cnt + 20 = _
      rw [g2, hc1]
    · intro h
      show (sync_swap e.cur_pos s1).chk_err_cnt + 20 = _
      rw [g2, hc1, hdec.1 h]
    · intro h
      show (sync_swap e.cur_pos s1).chk_err_cnt + 20 = _
      rw [g2, hc1, hdec.2 h]
    · show (sync_swap e.cur_pos s1).cur_lidar_state = _
      rw [g1, hst]
    · intro k j
      show ((sync_swap e.cur_pos s1).lidar_scans k).scan j = _
      rw [g7, hsc]
    · refine ⟨?_, ?_, ?_, ?_⟩
      · show (sync_swap e.cur_pos s1).prev_lidar_scan = _
        rw [g3, ha]
      · show (sync_swap e.cur_pos s1).acq_lidar_scan = _
        rw [g4, hp]
      · show ((sync_swap e.cur_pos s1).lidar_scans s.acq_lidar_scan).pos_at_end = _
        rw [← ha, g5]
      · show ((sync_swap e.cur_pos s1).lidar_scans s.prev_lidar_scan).pos_at_start = _
        rw [← hp, g6]
  · rw [if_neg hz]
    refine ⟨?_, ?_, ?_, hst, ?_, fun _ => ⟨hsc, ha, hp⟩, fun h => absurd h hz⟩
    · show s1.chk_err_cnt + 20 = _
      rw [hc1]
    · intro h
      show s1.chk_err_cnt + 20 = _
      rw [hc1, hdec.1 h]
    · intro h
      show s1.chk_err_cnt + 20 = _
      rw [hc1, hdec.2 h]
    · intro k j
      show (s1.lidar_scans k).scan j = _
      rw [hsc]

/-- Witness of C9 (amended): status 0, angle 0xFFFF, penalty 20 before. -/
theorem angle_out_of_range_witness :
    (lidar_rx_done_inthandler ref_tables (hw_packet [0, 255, 255, 0, 0, 0, 0] ⟨0, 0, 0⟩)
      { state_in S_LIDAR_RUNNING with chk_err_cnt := 20 }).chk_err_cnt = 20 + 19 :=
  (angle_out_of_range_penalty ref_tables { state_in S_LIDAR_RUNNING with chk_err_cnt := 20 }
    (hw_packet [0, 255, 255, 0, 0, 0, 0] ⟨0, 0, 0⟩) rfl (by decide)
    (by rw [← error_bits_iff _ (pkt_lt _ _)]; decide) (by decide)).2.1 (by decide)

/-- C9 fails as stated: with penalty 20, the valid-checksum packet with angle 0xFFFF
(slot 8191) leaves the penalty at 39, not 40; and the same packet with the sync
flag set swaps the role pointers and writes the pose snapshot. -/
theorem angle_fault_not_plus_twenty :
    ¬ chk_fails (hw_packet [0, 255, 255, 0, 0, 0, 0] ⟨0, 0, 0⟩) ∧
    slot_of (hw_packet [0, 255, 255, 0, 0, 0, 0] ⟨0, 0, 0⟩) = 8191 ∧
    (lidar_rx_done_inthandler ref_tables (hw_packet [0, 255, 255, 0, 0, 0, 0] ⟨0, 0, 0⟩)
      { state_in S_LIDAR_RUNNING with chk_err_cnt := 20 }).chk_err_cnt = 39 ∧
    ¬ chk_fails (hw_packet [1, 255, 255, 0, 0, 0, 1] ⟨5, 6, 7⟩) ∧
    (state_in S_LIDAR_RUNNING).acq_lidar_scan = 0 ∧
    (lidar_rx_done_inthandler ref_tables (hw_packet [1, 255, 255, 0, 0, 0, 1] ⟨5, 6, 7⟩)
      (state_in S_LIDAR_RUNNING)).acq_lidar_scan = 1 ∧
    ((state_in S_LIDAR_RUNNING).lidar_scans 0).pos_at_end = ⟨0, 0, 0⟩ ∧
    ((lidar_rx_done_inthandler ref_tables (hw_packet [1, 255, 255, 0, 0, 0, 1] ⟨5, 6, 7⟩)
      (state_in S_LIDAR_RUNNING)).lidar_scans 0).pos_at_end = ⟨5, 6, 7⟩ := by
  refine ⟨by decide, by decide, by decide, by decide, by decide, by decide, by decide,
    by decide⟩

/-! ### Self-occlusion mask -/

theorem and_bit15_eq_zero_iff (x : Nat) : x &&& (1 <<< 15) = 0 ↔ x.testBit 15 = false := by
  have h15 : (1 <<< 15 : Nat) = 2 ^ 15 := by decide
  rw [h15]
  constructor
  · intro h
    have := Nat.testBit_and x (2 ^ 15) 15
    rw [h, Nat.testBit_two_pow_self, Bool.and_true, Nat.zero_testBit] at this
    exact this.symm
  · intro h
    apply Nat.eq_of_testBit_eq
    intro i
    rw [Nat.testBit_and, Nat.zero_testBit]
    by_cases hi : 15 = i
    · subst hi; rw [h]; rfl
    · rw [Nat.testBit_two_pow_of_ne hi, Bool.and_false]

theorem and_3fff_eq_mod (x : Nat) : x &&& 0x3fff = x % 16384 := by
  have h : (0x3fff : Nat) = 2 ^ 14 - 1 := by decide
  rw [h, Nat.and_pow_two_sub_one_eq_mod]

theorem ignore_cond_iff (L : IgnoreLen) (rev : Nat → Nat → Nat) (i o : Nat) (ho : o < 4) :
    (flags_distance rev i o &&& (1 <<< 15) = 0 ∧
      ((flags_distance rev i o &&& 0x3fff : Nat) : Int) <
        (if i < 12 ∨ i ≥ 78 then L.LIDAR_IGNORE_LEN_FRONT else L.LIDAR_IGNORE_LEN)) ↔
    too_near L rev (i * 4 + o) := by
  unfold too_near
  have h1 : (i * 4 + o) / 4 = i := by omega
  have h2 : (i * 4 + o) % 4 = o := by omega
  rw [h1, h2, and_bit15_eq_zero_iff, and_3fff_eq_mod]
  have h3 : (i < 12 ∨ i ≥ 78) ↔ (i ≤ 11 ∨ 78 ≤ i) := by omega
  simp only [h3]

theorem ignore_body_near (L : IgnoreLen) (rev : Nat → Nat → Nat) (m : Nat → Nat) (i o : Nat)
    (ho : o < 4) (h : too_near L rev (i * 4 + o)) (j : Nat) :
    ignore_body L rev m i o j =
      if j = (if i * 4 + o + 1 > 359 then 0 else i * 4 + o + 1) then 1
      else if j = i * 4 + o then 1
      else if j = (if ((i * 4 + o : Nat) : Int) - 1 < 0 then 359 else i * 4 + o - 1) then 1
      else m j := by
  obtain ⟨h1, h2⟩ := (ignore_cond_iff L rev i o ho).mpr h
  unfold ignore_body
  rw [if_pos h1, if_pos h2]
  simp only [store8]
  rfl

theorem ignore_body_far (L : IgnoreLen) (rev : Nat → Nat → Nat) (m : Nat → Nat) (i o : Nat)
    (ho : o < 4) (h : ¬ too_near L rev (i * 4 + o)) :
    ignore_body L rev m i o = m := by
  rw [← ignore_cond_iff L rev i o ho] at h
  unfold ignore_body
  by_cases h1 : flags_distance rev i o &&& (1 <<< 15) = 0
  · rw [if_pos h1, if_neg (fun h2 => h ⟨h1, h2⟩)]
  · rw [if_neg h1]

theorem ignore_body_inv (L : IgnoreLen) (rev : Nat → Nat → Nat) (m : Nat → Nat) (i o : Nat)
    (hi : i < 90) (ho : o < 4) (h : ignore_inv L rev (i * 4 + o) m) :
    ignore_inv L rev (i * 4 + o + 1) (ignore_body L rev m i o) := by
  intro j hj
  obtain ⟨h1, h2⟩ := h j hj
  by_cases hn : too_near L rev (i * 4 + o)
  · rw [ignore_body_near L rev m i o ho hn j]
    have hnb : neighbours j (i * 4 + o) ↔
        (j = (if i * 4 + o + 1 > 359 then 0 else i * 4 + o + 1) ∨ j = i * 4 + o ∨
         j = (if ((i * 4 + o : Nat) : Int) - 1 < 0 then 359 else i * 4 + o - 1)) := by
      unfold neighbours
      split_ifs <;> omega
    constructor
    · constructor
      · intro hm
        by_cases hc : neighbours j (i * 4 + o)
        · exact ⟨i * 4 + o, by omega, hc, hn⟩
        · rw [hnb] at hc
          push_neg at hc
          rw [if_neg hc.1, if_neg hc.2.1, if_neg hc.2.2] at hm
          obtain ⟨k, hk, hk2, hk3⟩ := h1.mp hm
          exact ⟨k, by omega, hk2, hk3⟩
      · rintro ⟨k, hk, hk2, hk3⟩
        by_cases hkc : k = i * 4 + o
        · rw [hkc, hnb] at hk2
          rcases hk2 with h | h | h
          · rw [if_pos h]
          · split_ifs <;> rfl
          · split_ifs <;> rfl
        · have hm : m j = 1 := h1.mpr ⟨k, by omega, hk2, hk3⟩
          split_ifs <;> first | rfl | exact hm
    · split_ifs <;> first | exact Or.inr rfl | exact h2
  · rw [ignore_body_far L rev m i o ho hn]
    refine ⟨?_, h2⟩
    rw [h1]
    constructor
    · rintro ⟨k, hk, hk2, hk3⟩
      exact ⟨k, by omega, hk2, hk3⟩
    · rintro ⟨k, hk, hk2, hk3⟩
      have : k ≠ i * 4 + o := fun hkc => hn (hkc ▸ hk3)
      exact ⟨k, by omega, hk2, hk3⟩

theorem zero_loop (old : Nat → Nat) (n j : Nat) (hj : j < n) :
    (List.range n).foldl (fun m i => store8 m i 0) old j = 0 := by
  induction n with
  | zero => omega
  | succ n ih =>
    rw [List.range_succ, List.foldl_append]
    simp only [List.foldl_cons, List.foldl_nil, store8]
    by_cases h : j = n
    · rw [if_pos h]; rfl
    · rw [if_neg h]; exact ih (by omega)

theorem ignore_inner_inv (L : IgnoreLen) (rev : Nat → Nat → Nat) (m : Nat → Nat) (i : Nat)
    (hi : i < 90) (h : ignore_inv L rev (i * 4) m) :
    ignore_inv L rev ((i + 1) * 4)
      ((List.range 4).foldl (fun m o => ignore_body L rev m i o) m) := by
  have hr : List.range 4 = [0, 1, 2, 3] := by decide
  rw [hr]
  simp only [List.foldl_cons, List.foldl_nil]
  have h0 := ignore_body_inv L rev m i 0 hi (by norm_num) h
  have h1 := ignore_body_inv L rev _ i 1 hi (by norm_num) h0
  have h2 := ignore_body_inv L rev _ i 2 hi (by norm_num) h1
  have h3 := ignore_body_inv L rev _ i 3 hi (by norm_num) h2
  have he : (i + 1) * 4 = i * 4 + 3 + 1 := by ring
  rw [he]
  exact h3

theorem ignore_outer_inv (L : IgnoreLen) (rev : Nat → Nat → Nat) (m0 : Nat → Nat)
    (h0 : ∀ j, j < 360 → m0 j = 0) (n : Nat) (hn : n ≤ 90) :
    ignore_inv L rev (n * 4)
      ((List.range n).foldl
        (fun m i => (List.range 4).foldl (fun m o => ignore_body L rev m i o) m) m0) := by
  induction n with
  | zero =>
    intro j hj
    simp only [List.range_zero, List.foldl_nil, h0 j hj]
    refine ⟨⟨fun h => absurd h (by norm_num), ?_⟩, Or.inl trivial⟩
    rintro ⟨k, hk, -⟩
    omega
  | succ n ih =>
    have hr : List.range (n + 1) = List.range n ++ [n] := List.range_succ n
    rw [hr, List.foldl_append]
    simp only [List.foldl_cons, List.foldl_nil]
    exact ignore_inner_inv L rev _ n (by omega) (ih (by omega))

/-- C10: after `generate_lidar_ignore`, whatever the previous mask, entry j
(j < 360) is 1 exactly when some sample k among j-1, j, j+1 (modulo 360) of the
reference revolution has bit 15 clear and its 14-bit distance below the threshold
of its packet (front threshold for packets 0..11 and 78..89, general threshold
otherwise), and every entry is 0 or 1. -/
theorem generate_lidar_ignore_spec (L : IgnoreLen) (lidar_full_rev : Nat → Nat → Nat)
    (lidar_ignore : Nat → Nat) (j : Nat) (hj : j < 360) :
    (generate_lidar_ignore L lidar_full_rev lidar_ignore j = 1 ↔
      ∃ k, k < 360 ∧ neighbours j k ∧ too_near L lidar_full_rev k) ∧
    (generate_lidar_ignore L lidar_full_rev lidar_ignore j = 0 ∨
      generate_lidar_ignore L lidar_full_rev lidar_ignore j = 1) := by
  unfold generate_lidar_ignore
  exact ignore_outer_inv L lidar_full_rev _ (fun i hi => zero_loop lidar_ignore 360 i hi) 90
    (le_refl _) j hj

/-- Witness of C10: entry 359 of the mask built from `ref_rev`, over a previous
mask of all ones. -/
theorem generate_lidar_ignore_witness :
    (generate_lidar_ignore ref_ignore_len ref_rev (fun _ => 1) 359 = 1 ↔
      ∃ k, k < 360 ∧ neighbours 359 k ∧ too_near ref_ignore_len ref_rev k) ∧
    (generate_lidar_ignore ref_ignore_len ref_rev (fun _ => 1) 359 = 0 ∨
      generate_lidar_ignore ref_ignore_len ref_rev (fun _ => 1) 359 = 1) :=
  generate_lidar_ignore_spec ref_ignore_len ref_rev (fun _ => 1) 359 (by decide)

/-! ### Control pair -/

/-- C11: for fps in [1,5] and smp in [1,3], `lidar_on` stores both values, appends
the power enable to the effect log, and sets the state to WaitPowered when the
prior state is Off or Uninit and to the reconfigure state (not WaitPowered) when
the prior state is Running. -/
theorem lidar_on_accepts (s : State) (fps smp : Int)
    (hf1 : 1 ≤ fps) (hf5 : fps ≤ 5) (hm1 : 1 ≤ smp) (hm3 : smp ≤ 3) :
    (lidar_on fps smp s).lidar_fps = fps ∧
    (lidar_on fps smp s).lidar_smp = smp ∧
    (lidar_on fps smp s).io = s.io ++ [Effect.lidar_ena] ∧
    (s.cur_lidar_state = S_LIDAR_OFF ∨ s.cur_lidar_state = S_LIDAR_UNINIT →
      (lidar_on fps smp s).cur_lidar_state = S_LIDAR_WAITPOWERED) ∧
    (s.cur_lidar_state = S_LIDAR_RUNNING →
      (lidar_on fps smp s).cur_lidar_state = S_LIDAR_RECONF ∧
      (lidar_on fps smp s).cur_lidar_state ≠ S_LIDAR_WAITPOWERED) := by
  have hv : ¬ (fps < 1 ∨ fps > 5 ∨ smp < 1 ∨ smp > 3) := by omega
  unfold lidar_on
  rw [if_neg hv]
  simp only
  by_cases hr : s.cur_lidar_state = S_LIDAR_RUNNING
  · rw [if_pos hr]
    refine ⟨rfl, rfl, rfl, fun h => ?_, fun _ => ⟨rfl, by show S_LIDAR_RECONF ≠ S_LIDAR_WAITPOWERED; decide⟩⟩
    rcases h with h | h <;> rw [h] at hr <;> exact absurd hr (by decide)
  · rw [if_neg hr]
    exact ⟨rfl, rfl, rfl, fun _ => rfl, fun h => absurd h hr⟩

/-- Witness of C11: the request (2, 2) at the boot state. -/
theorem lidar_on_accepts_witness :
    (lidar_on 2 2 boot_state).cur_lidar_state = S_LIDAR_WAITPOWERED :=
  (lidar_on_accepts boot_state 2 2 (by decide) (by decide) (by decide) (by decide)).2.2.2.1
    (Or.inl rfl)

/-- C12: for every session state, `lidar_off` appends the power disable to the effect
log and leaves `cur_lidar_state` equal to Off; nothing else changes. -/
theorem lidar_off_forces_off (s : State) :
    (lidar_off s).cur_lidar_state = S_LIDAR_OFF ∧
    (lidar_off s).io = s.io ++ [Effect.lidar_dis] ∧
    lidar_off s = { s with io := s.io ++ [Effect.lidar_dis], cur_lidar_state := S_LIDAR_OFF } :=
  ⟨rfl, rfl, rfl⟩

/-- C13: in state Error the polling tick and the completion handler (for any
receive-buffer contents, pose and tables) return the state unchanged, so the
state stays Error and the scans, role pointers and `lidar_error_flags` are kept,
also over any sequence of ticks and completion events; `lidar_off` and a valid
`lidar_on` do leave Error. -/
theorem error_is_terminal (T : Tables) (s : State) (hs : s.cur_lidar_state = S_LIDAR_ERROR) :
    lidar_fsm s = s ∧
    (∀ e : Hw, lidar_rx_done_inthandler T e s = s) ∧
    (∀ evs : List Event, (∀ ev ∈ evs, ev = Event.tick ∨ ∃ e, ev = Event.rx_done e) →
      run T s evs = s) ∧
    (lidar_off s).cur_lidar_state = S_LIDAR_OFF ∧
    (∀ fps smp : Int, 1 ≤ fps → fps ≤ 5 → 1 ≤ smp → smp ≤ 3 →
      (lidar_on fps smp s).cur_lidar_state = S_LIDAR_WAITPOWERED) := by
  have h1 : lidar_fsm s = s := by simp only [lidar_fsm, hs]
  have h2 : ∀ e : Hw, lidar_rx_done_inthandler T e s = s := by
    intro e; simp only [lidar_rx_done_inthandler, hs]
  refine ⟨h1, h2, ?_, rfl, ?_⟩
  · intro evs
    induction evs with
    | nil => intro _; rfl
    | cons ev evs ih =>
      intro h
      have hstep : step T s ev = s := by
        rcases h ev (List.mem_cons_self _ _) with h0 | ⟨e, h0⟩
        · rw [h0]; exact h1
        · rw [h0]; exact h2 e
      rw [run_cons, hstep]
      exact ih (fun x hx => h x (List.mem_cons_of_mem _ hx))
  · intro fps smp hf1 hf5 hm1 hm3
    have hv : ¬ (fps < 1 ∨ fps > 5 ∨ smp < 1 ∨ smp > 3) := by omega
    unfold lidar_on
    rw [if_neg hv]
    simp only
    rw [if_neg (by rw [hs]; decide)]

/-- Witness of C13: the boot globals placed in Error, one tick. -/
theorem error_is_terminal_witness : lidar_fsm (state_in S_LIDAR_ERROR) = state_in S_LIDAR_ERROR :=
  (error_is_terminal ref_tables (state_in S_LIDAR_ERROR) rfl).1

/-- C14 fails on the code: `lidar_off` and `lidar_on` leave the static `powerwait_cnt`
of `lidar_fsm` as it is.  A first start from the boot state is still in WaitPowered
after 2000 ticks and moves to PreconfWaitReady at tick 2001; a stop and restart
issued after those 2000 ticks begins with the counter at 2000 and leaves
WaitPowered after a single tick. -/
theorem restart_inherits_settle_count :
    (run ref_tables boot_state
      (Event.on 2 2 :: List.replicate 2000 Event.tick)).cur_lidar_state = S_LIDAR_WAITPOWERED ∧
    (run ref_tables boot_state
      (Event.on 2 2 :: (List.replicate 2000 Event.tick ++ [Event.tick]))).cur_lidar_state =
        S_LIDAR_PRECONF_WAIT_READY ∧
    (run ref_tables boot_state
      (Event.on 2 2 :: (List.replicate 2000 Event.tick ++
        [Event.off, Event.on 2 2]))).cur_lidar_state = S_LIDAR_WAITPOWERED ∧
    (run ref_tables boot_state
      (Event.on 2 2 :: (List.replicate 2000 Event.tick ++
        [Event.off, Event.on 2 2]))).powerwait_cnt = 2000 ∧
    (run ref_tables boot_state
      (Event.on 2 2 :: (List.replicate 2000 Event.tick ++
        [Event.off, Event.on 2 2, Event.tick]))).cur_lidar_state =
        S_LIDAR_PRECONF_WAIT_READY := by
  have h := (ticks_waitpowered ref_tables 2000 (step ref_tables boot_state (Event.on 2 2)) rfl
    (by decide)).1
  simp only [run_cons, run_append, h]
  refine ⟨by decide, by decide, by decide, by decide, by decide⟩

/-! ### Frame of the finished scan -/

theorem rx_store_other (T : Tables) (e : Hw) (s : State) (k : Fin 2)
    (hk : k ≠ s.acq_lidar_scan) :
    (rx_store T e s).lidar_scans k = s.lidar_scans k := by
  unfold rx_store
  simp only
  split_ifs <;> simp only [upd_scan, if_neg hk]

/-- The two role pointers stay distinct under every event. -/
theorem roles_distinct_step (T : Tables) (s : State) (ev : Event)
    (hd : s.acq_lidar_scan ≠ s.prev_lidar_scan) :
    (step T s ev).acq_lidar_scan ≠ (step T s ev).prev_lidar_scan := by
  rcases ev with ⟨fps, smp⟩ | _ | _ | e
  · simp only [step, lidar_on]
    split_ifs <;> exact hd
  · exact hd
  · simp only [step, lidar_fsm]
    split <;> (try split_ifs) <;> exact hd
  · simp only [step, lidar_rx_done_inthandler]
    split
    · split_ifs <;> exact hd
    · split_ifs <;> exact hd
    · split_ifs <;> exact hd
    · split_ifs <;> exact hd
    · split_ifs <;> exact hd
    · unfold rx_running
      by_cases hc : pkt_chk e ≠ pkt e 6 ∨ (pkt e 0 &&& 254) ≠ 0
      · rw [if_pos hc]
        simp only
        split_ifs <;> exact hd
      · rw [if_neg hc]
        unfold rx_good
        simp only
        obtain ⟨-, fa, fp, -, -⟩ := rx_store_frame T e
          (if pkt e 0 ≠ 0 then sync_swap e.cur_pos
            (if s.chk_err_cnt ≠ 0 then { s with chk_err_cnt := s.chk_err_cnt - 1 } else s)
           else (if s.chk_err_cnt ≠ 0 then { s with chk_err_cnt := s.chk_err_cnt - 1 } else s))
        rw [fa, fp]
        split_ifs <;> first | exact hd | exact fun h => hd h.symm
    · exact hd

/-- C15 (as amended): in Running, when the two role pointers designate different
scans (a property that every event preserves, `roles_distinct_step`), a packet
whose status byte is 0 leaves the finished scan unchanged whatever its checksum,
angle and length: `prev_lidar_scan` is the same pointer and the scan it designates
(all samples and both pose snapshots) is the same before and after. -/
theorem finished_scan_unchanged (T : Tables) (s : State) (e : Hw)
    (hs : s.cur_lidar_state = S_LIDAR_RUNNING)
    (hd : s.acq_lidar_scan ≠ s.prev_lidar_scan)
    (hz : pkt e 0 = 0) :
    (lidar_rx_done_inthandler T e s).prev_lidar_scan = s.prev_lidar_scan ∧
    (lidar_rx_done_inthandler T e s).lidar_scans s.prev_lidar_scan =
      s.lidar_scans s.prev_lidar_scan := by
  simp only [lidar_rx_done_inthandler, hs, rx_running]
  by_cases hc : pkt_chk e ≠ pkt e 6 ∨ (pkt e 0 &&& 254) ≠ 0
  · rw [if_pos hc]
    split_ifs <;> exact ⟨rfl, rfl⟩
  · rw [if_neg hc]
    unfold rx_good
    simp only
    rw [if_neg (by simp [hz])]
    generalize hs1 :
      (if s.chk_err_cnt ≠ 0 then { s with chk_err_cnt := s.chk_err_cnt - 1 } else s) = s1
    have ha : s1.acq_lidar_scan = s.acq_lidar_scan := by rw [← hs1]; split_ifs <;> rfl
    have hp : s1.prev_lidar_scan = s.prev_lidar_scan := by rw [← hs1]; split_ifs <;> rfl
    have hsc : s1.lidar_scans = s.lidar_scans := by rw [← hs1]; split_ifs <;> rfl
    obtain ⟨-, -, fp, -, -⟩ := rx_store_frame T e s1
    refine ⟨by rw [fp, hp], ?_⟩
    rw [rx_store_other T e s1 s.prev_lidar_scan (by rw [ha]; exact fun h => hd h.symm), hsc]

/-- Witness of C15: a good packet at angle 0, length 100 cm, no sync. -/
theorem finished_scan_unchanged_witness :
    (lidar_rx_done_inthandler ref_tables (hw_packet [0, 0, 0, 100, 0, 0, 100] ⟨0, 0, 0⟩)
      (state_in S_LIDAR_RUNNING)).prev_lidar_scan = (state_in S_LIDAR_RUNNING).prev_lidar_scan :=
  (finished_scan_unchanged ref_tables (state_in S_LIDAR_RUNNING)
    (hw_packet [0, 0, 0, 100, 0, 0, 100] ⟨0, 0, 0⟩) rfl (by decide) (by decide)).1

/-- C15 fails as stated: in the Running state whose two role pointers hold the same
value, the good packet with status byte 0, angle 0 and length 100 cm changes
slot 0 of the scan that `prev_lidar_scan` designates from (0, 0, 0) to
(valid, 999, 0). -/
theorem finished_scan_written_when_roles_coincide :
    state_one_scan.cur_lidar_state = S_LIDAR_RUNNING ∧
    state_one_scan.acq_lidar_scan = state_one_scan.prev_lidar_scan ∧
    pkt (hw_packet [0, 0, 0, 100, 0, 0, 100] ⟨0, 0, 0⟩) 0 = 0 ∧
    (state_one_scan.lidar_scans state_one_scan.prev_lidar_scan).scan 0 = ⟨0, 0, 0⟩ ∧
    ((lidar_rx_done_inthandler ref_tables (hw_packet [0, 0, 0, 100, 0, 0, 100] ⟨0, 0, 0⟩)
      state_one_scan).lidar_scans state_one_scan.prev_lidar_scan).scan 0 = ⟨1, 999, 0⟩ ∧
    (lidar_rx_done_inthandler ref_tables (hw_packet [0, 0, 0, 100, 0, 0, 100] ⟨0, 0, 0⟩)
      state_one_scan).prev_lidar_scan = state_one_scan.prev_lidar_scan := by
  refine ⟨rfl, rfl, by decide, by decide, by decide, by decide⟩

/-! ### Error flags and the penalty budget -/

/-- C16 (as amended): in Running, a packet whose status byte has an error bit set
adds 20 to the penalty; the session moves to Error, with the status byte stored in
`lidar_error_flags`, exactly when the new penalty exceeds 100 (the penalty was
above 80); otherwise the session stays Running and `lidar_error_flags` keeps its
value. -/
theorem error_flag_uses_budget (T : Tables) (s : State) (e : Hw)
    (hs : s.cur_lidar_state = S_LIDAR_RUNNING)
    (herr : has_error_bit (pkt e 0)) :
    (lidar_rx_done_inthandler T e s).chk_err_cnt = s.chk_err_cnt + 20 ∧
    (80 < s.chk_err_cnt →
      (lidar_rx_done_inthandler T e s).cur_lidar_state = S_LIDAR_ERROR ∧
      (lidar_rx_done_inthandler T e s).lidar_error_flags = pkt e 0) ∧
    (s.chk_err_cnt ≤ 80 →
      (lidar_rx_done_inthandler T e s).cur_lidar_state = S_LIDAR_RUNNING ∧
      (lidar_rx_done_inthandler T e s).lidar_error_flags = s.lidar_error_flags) := by
  have hc := (fault_cond_iff e).mpr (Or.inr herr)
  simp only [lidar_rx_done_inthandler, hs, rx_running]
  rw [if_pos hc]
  by_cases h : s.chk_err_cnt + 20 > 100
  · rw [if_pos h]
    exact ⟨rfl, fun _ => ⟨rfl, rfl⟩, fun h2 => absurd h2 (by omega)⟩
  · rw [if_neg h]
    exact ⟨rfl, fun h2 => absurd h2 (by omega), fun _ => ⟨rfl, rfl⟩⟩

/-- Witness of C16 (amended): status byte 2 with valid checksum, penalty 0. -/
theorem error_flag_uses_budget_witness :
    (lidar_rx_done_inthandler ref_tables (hw_packet [2, 0, 0, 0, 0, 0, 2] ⟨0, 0, 0⟩)
      (state_in S_LIDAR_RUNNING)).chk_err_cnt = (state_in S_LIDAR_RUNNING).chk_err_cnt + 20 :=
  (error_flag_uses_budget ref_tables (state_in S_LIDAR_RUNNING)
    (hw_packet [2, 0, 0, 0, 0, 0, 2] ⟨0, 0, 0⟩) rfl
    ((error_bits_iff _ (pkt_lt _ _)).mp (by decide))).1

/-- C16 fails as stated: at penalty 0 the packet with status byte 2 (error bit 1 set,
checksum valid) leaves the session in Running with penalty 20 and
`lidar_error_flags` still 0. -/
theorem single_error_flag_not_fatal :
    (pkt (hw_packet [2, 0, 0, 0, 0, 0, 2] ⟨0, 0, 0⟩) 0).testBit 1 = true ∧
    ¬ chk_fails (hw_packet [2, 0, 0, 0, 0, 0, 2] ⟨0, 0, 0⟩) ∧
    (lidar_rx_done_inthandler ref_tables (hw_packet [2, 0, 0, 0, 0, 0, 2] ⟨0, 0, 0⟩)
      (state_in S_LIDAR_RUNNING)).cur_lidar_state = S_LIDAR_RUNNING ∧
    (lidar_rx_done_inthandler ref_tables (hw_packet [2, 0, 0, 0, 0, 0, 2] ⟨0, 0, 0⟩)
      (state_in S_LIDAR_RUNNING)).chk_err_cnt = 20 ∧
    (lidar_rx_done_inthandler ref_tables (hw_packet [2, 0, 0, 0, 0, 0, 2] ⟨0, 0, 0⟩)
      (state_in S_LIDAR_RUNNING)).lidar_error_flags = 0 := by
  refine ⟨by decide, by decide, by decide, by decide, by decide⟩

/-! ### Replies in the configuration steps -/

/-- C17 fails on the code: the reply whose first four bytes are 'M','Z','0','0' is not
recognised.  Whatever the address of `lidar_rxbuf`, the first two comparisons
cannot both hold (the two rows are 16 bytes apart, 'M' and 'Z' are 13 apart), so
in PreconfWaitReady and in WaitReady the handler keeps the state, sets the poll
countdown to 100 and transmits nothing, also for that reply. -/
theorem stabilized_reply_not_recognised :
    reply_bytes (with_reply hw_idle [77, 90, 48, 48]) 4 = [77, 90, 48, 48] ∧
    (∀ e : Hw, ¬ (rx e 0 = 77 ∧ rx e 1 = 90)) ∧
    (lidar_rx_done_inthandler ref_tables (with_reply hw_idle [77, 90, 48, 48])
      (state_in S_LIDAR_PRECONF_WAIT_READY)).cur_lidar_state = S_LIDAR_PRECONF_WAIT_READY ∧
    (lidar_rx_done_inthandler ref_tables (with_reply hw_idle [77, 90, 48, 48])
      (state_in S_LIDAR_PRECONF_WAIT_READY)).wait_ready_poll_cnt = 100 ∧
    (lidar_rx_done_inthandler ref_tables (with_reply hw_idle [77, 90, 48, 48])
      (state_in S_LIDAR_PRECONF_WAIT_READY)).io = [] ∧
    (lidar_rx_done_inthandler ref_tables (with_reply hw_idle [77, 90, 48, 48])
      (state_in S_LIDAR_WAIT_READY)).cur_lidar_state = S_LIDAR_WAIT_READY ∧
    (lidar_rx_done_inthandler ref_tables (with_reply hw_idle [77, 90, 48, 48])
      (state_in S_LIDAR_WAIT_READY)).wait_ready_poll_cnt = 100 ∧
    (lidar_rx_done_inthandler ref_tables (with_reply hw_idle [77, 90, 48, 48])
      (state_in S_LIDAR_WAIT_READY)).io = [] := by
  refine ⟨by decide, fun e h => ?_, ?_, ?_, ?_, ?_, ?_, ?_⟩
  · obtain ⟨h0, h1⟩ := h
    simp only [rx, Fin.val_zero, Fin.val_one] at h0 h1
    omega
  all_goals decide

/-- C18 fails on the code: with lidar_fps = lidar_smp = 2, the exactly matching
replies "MS02\n00P\n" in Conf1, "LR02\n00P\n" in Conf2 and "DS00P\n" in
WaitStartAck each move the session to Error; nothing is transmitted and
`lidar_start_acq` is not called.  Whatever the address of `lidar_rxbuf`, the first
two comparisons of each test cannot both hold. -/
theorem matching_reply_gives_error :
    reply_bytes (with_reply hw_idle [77, 83, 48, 50, 10, 48, 48, 80, 10]) 9 =
      expected_reply (state_in S_LIDAR_CONF1) ∧
    reply_bytes (with_reply hw_idle [76, 82, 48, 50, 10, 48, 48, 80, 10]) 9 =
      expected_reply (state_in S_LIDAR_CONF2) ∧
    reply_bytes (with_reply hw_idle [68, 83, 48, 48, 80, 10]) 6 =
      expected_reply (state_in S_LIDAR_WAIT_START_ACK) ∧
    (∀ e : Hw, ¬ (rx e 0 = 77 ∧ rx e 1 = 83) ∧ ¬ (rx e 0 = 76 ∧ rx e 1 = 82) ∧
      ¬ (rx e 0 = 68 ∧ rx e 1 = 83)) ∧
    (lidar_rx_done_inthandler ref_tables
      (with_reply hw_idle [77, 83, 48, 50, 10, 48, 48, 80, 10])
      (state_in S_LIDAR_CONF1)).cur_lidar_state = S_LIDAR_ERROR ∧
    (lidar_rx_done_inthandler ref_tables
      (with_reply hw_idle [77, 83, 48, 50, 10, 48, 48, 80, 10])
      (state_in S_LIDAR_CONF1)).io = [] ∧
    (lidar_rx_done_inthandler ref_tables
      (with_reply hw_idle [76, 82, 48, 50, 10, 48, 48, 80, 10])
      (state_in S_LIDAR_CONF2)).cur_lidar_state = S_LIDAR_ERROR ∧
    (lidar_rx_done_inthandler ref_tables (with_reply hw_idle [68, 83, 48, 48, 80, 10])
      (state_in S_LIDAR_WAIT_START_ACK)).cur_lidar_state = S_LIDAR_ERROR ∧
    (lidar_rx_done_inthandler ref_tables (with_reply hw_idle [68, 83, 48, 48, 80, 10])
      (state_in S_LIDAR_WAIT_START_ACK)).io = [] := by
  refine ⟨by decide, by decide, by decide, fun e => ⟨fun h => ?_, fun h => ?_, fun h => ?_⟩,
    ?_, ?_, ?_, ?_, ?_⟩
  · obtain ⟨h0, h1⟩ := h
    simp only [rx, Fin.val_zero, Fin.val_one] at h0 h1
    omega
  · obtain ⟨h0, h1⟩ := h
    simp only [rx, Fin.val_zero, Fin.val_one] at h0 h1
    omega
  · obtain ⟨h0, h1⟩ := h
    simp only [rx, Fin.val_zero, Fin.val_one] at h0 h1
    omega
  all_goals decide

/-! ### The penalty as a decaying budget -/

theorem rx_store_chk (T : Tables) (e : Hw) (s : State) :
    (rx_store T e s).chk_err_cnt =
      if slot_of e > 719 then s.chk_err_cnt + 20 else s.chk_err_cnt := by
  unfold rx_store slot_of
  simp only
  split_ifs <;> rfl

theorem rx_good_chk (T : Tables) (e : Hw) (s : State) :
    (rx_good T e s).chk_err_cnt =
      if slot_of e > 719 then decayed s.chk_err_cnt + 20 else decayed s.chk_err_cnt := by
  unfold rx_good
  simp only
  rw [rx_store_chk]
  have h : (if pkt e 0 ≠ 0 then sync_swap e.cur_pos
      (if s.chk_err_cnt ≠ 0 then { s with chk_err_cnt := s.chk_err_cnt - 1 } else s)
      else (if s.chk_err_cnt ≠ 0 then { s with chk_err_cnt := s.chk_err_cnt - 1 }
        else s)).chk_err_cnt = decayed s.chk_err_cnt := by
    unfold decayed
    split_ifs <;> rfl
  rw [h]

theorem rx_good_state (T : Tables) (e : Hw) (s : State) :
    (rx_good T e s).cur_lidar_state = s.cur_lidar_state := by
  unfold rx_good
  simp only
  rw [(rx_store_frame T e _).1]
  split_ifs <;> rfl

theorem decayed_nonneg (c : Int) (h : 0 ≤ c) : 0 ≤ decayed c := by
  unfold decayed
  split_ifs <;> omega

theorem step_chk_nonneg (T : Tables) (s : State) (ev : Event) (h0 : 0 ≤ s.chk_err_cnt) :
    0 ≤ (step T s ev).chk_err_cnt := by
  rcases ev with ⟨fps, smp⟩ | _ | _ | e
  · simp only [step, lidar_on]
    split_ifs <;> exact h0
  · exact h0
  · simp only [step, lidar_fsm]
    split <;> (try split_ifs) <;> exact h0
  · simp only [step, lidar_rx_done_inthandler]
    split
    · split_ifs <;> exact h0
    · split_ifs <;> exact h0
    · split_ifs <;> exact h0
    · split_ifs <;> exact h0
    · split_ifs
      · exact le_refl _
      · exact h0
    · unfold rx_running
      by_cases hc : pkt_chk e ≠ pkt e 6 ∨ (pkt e 0 &&& 254) ≠ 0
      · rw [if_pos hc]
        simp only
        split_ifs <;> (show 0 ≤ s.chk_err_cnt + 20) <;> omega
      · rw [if_neg hc, rx_good_chk]
        have := decayed_nonneg _ h0
        split_ifs <;> omega
    · exact h0

theorem run_chk_nonneg (T : Tables) (evs : List Event) : ∀ s : State,
    0 ≤ s.chk_err_cnt → 0 ≤ (run T s evs).chk_err_cnt := by
  induction evs with
  | nil => intro s h; exact h
  | cons ev evs ih => intro s h; exact ih _ (step_chk_nonneg T s ev h)

theorem good_packet_step (T : Tables) (s : State) (e : Hw)
    (hs : s.cur_lidar_state = S_LIDAR_RUNNING) (hg : good_packet e) :
    (lidar_rx_done_inthandler T e s).cur_lidar_state = S_LIDAR_RUNNING ∧
    (lidar_rx_done_inthandler T e s).chk_err_cnt = decayed s.chk_err_cnt := by
  obtain ⟨h1, h2, h3⟩ := hg
  rw [running_good T s e hs h1 h2, rx_good_state, rx_good_chk, if_neg (by omega)]
  exact ⟨hs, rfl⟩

/-- C19: the penalty never goes negative and decays by one per good packet: from
any state with `chk_err_cnt >= 0` (in particular the state left by the start
acknowledgement, where it is 0) every sequence of events leaves `chk_err_cnt >= 0`;
and in Running a packet with valid checksum, no error flag and slot index at most
719 lowers `chk_err_cnt` by exactly 1 when it is positive and leaves it at 0 when
it is 0. -/
theorem penalty_nonneg_and_decays (T : Tables) :
    (∀ (s : State) (evs : List Event), 0 ≤ s.chk_err_cnt → 0 ≤ (run T s evs).chk_err_cnt) ∧
    (∀ (s : State) (e : Hw), s.cur_lidar_state = S_LIDAR_RUNNING →
      ¬ chk_fails e → ¬ has_error_bit (pkt e 0) → slot_of e ≤ 719 →
      (0 < s.chk_err_cnt →
        (lidar_rx_done_inthandler T e s).chk_err_cnt = s.chk_err_cnt - 1) ∧
      (s.chk_err_cnt = 0 → (lidar_rx_done_inthandler T e s).chk_err_cnt = 0)) := by
  refine ⟨fun s evs h => run_chk_nonneg T evs s h, fun s e hs h1 h2 h3 => ?_⟩
  rw [(good_packet_step T s e hs ⟨h1, h2, h3⟩).2]
  unfold decayed
  constructor
  · intro h; rw [if_pos (by omega)]
  · intro h; rw [if_neg (by simpa using h), h]

/-- Witness of C19: a good packet at penalty 20 leaves 19. -/
theorem penalty_decays_witness :
    (lidar_rx_done_inthandler ref_tables (hw_packet [0, 0, 0, 100, 0, 0, 100] ⟨0, 0, 0⟩)
      { state_in S_LIDAR_RUNNING with chk_err_cnt := 20 }).chk_err_cnt = 20 - 1 :=
  ((penalty_nonneg_and_decays ref_tables).2 { state_in S_LIDAR_RUNNING with chk_err_cnt := 20 }
    (hw_packet [0, 0, 0, 100, 0, 0, 100] ⟨0, 0, 0⟩) rfl (by decide)
    (by rw [← error_bits_iff _ (pkt_lt _ _)]; decide) (by decide)).1 (by decide)

theorem good_packets_run (T : Tables) : ∀ (es : List Hw) (s : State),
    s.cur_lidar_state = S_LIDAR_RUNNING → (∀ e ∈ es, good_packet e) →
    (es.length : Int) ≤ s.chk_err_cnt →
    (run T s (es.map Event.rx_done)).cur_lidar_state = S_LIDAR_RUNNING ∧
    (run T s (es.map Event.rx_done)).chk_err_cnt = s.chk_err_cnt - (es.length : Int) := by
  intro es
  induction es with
  | nil => intro s hs _ _; exact ⟨hs, by simp [run]⟩
  | cons e es ih =>
    intro s hs hg hle
    simp only [List.length_cons, Nat.cast_add, Nat.cast_one] at hle
    obtain ⟨h1, h2⟩ := good_packet_step T s e hs (hg e (List.mem_cons_self _ _))
    have hd : decayed s.chk_err_cnt = s.chk_err_cnt - 1 := by
      unfold decayed; rw [if_pos (by omega)]
    rw [hd] at h2
    obtain ⟨k1, k2⟩ := ih (lidar_rx_done_inthandler T e s) h1
      (fun x hx => hg x (List.mem_cons_of_mem _ hx)) (by rw [h2]; omega)
    simp only [List.map_cons, run_cons, step_rx, List.length_cons, Nat.cast_add, Nat.cast_one]
    refine ⟨k1, ?_⟩
    rw [k2, h2]
    ring

theorem fault_cycle_run (T : Tables) (f g : Hw) (s : State)
    (hs : s.cur_lidar_state = S_LIDAR_RUNNING) (hf : chk_fails f) (hg : good_packet g)
    (h0 : 0 ≤ s.chk_err_cnt) (h80 : s.chk_err_cnt ≤ 80) :
    (run T s ((fault_cycle f g).map Event.rx_done)).cur_lidar_state = S_LIDAR_RUNNING ∧
    (run T s ((fault_cycle f g).map Event.rx_done)).chk_err_cnt = s.chk_err_cnt + 1 := by
  obtain ⟨b1, b2⟩ := bad_packets_run T [f] s hs
    (fun e he => by rw [List.mem_singleton.mp he]; exact hf)
    (by simp only [List.length_singleton, Nat.cast_one]; omega)
  simp only [List.map_cons, List.map_nil, run, List.length_singleton, Nat.cast_one] at b1 b2
  obtain ⟨g1, g2⟩ := good_packets_run T (List.replicate 19 g) _ b1
    (fun e he => by rw [List.eq_of_mem_replicate he]; exact hg)
    (by rw [b2, List.length_replicate]; push_cast; omega)
  unfold fault_cycle
  rw [List.map_cons, run_cons]
  refine ⟨g1, ?_⟩
  rw [g2, b2, List.length_replicate]
  push_cast
  ring

theorem fault_stream_run (T : Tables) (f g : Hw) (hf : chk_fails f) (hg : good_packet g) :
    ∀ (n : Nat) (s : State), s.cur_lidar_state = S_LIDAR_RUNNING → 0 ≤ s.chk_err_cnt →
    s.chk_err_cnt + (n : Int) ≤ 81 →
    (run T s ((fault_stream f g n).map Event.rx_done)).cur_lidar_state = S_LIDAR_RUNNING ∧
    (run T s ((fault_stream f g n).map Event.rx_done)).chk_err_cnt =
      s.chk_err_cnt + (n : Int) := by
  intro n
  induction n with
  | zero => intro s hs _ _; exact ⟨hs, by simp [fault_stream, run]⟩
  | succ n ih =>
    intro s hs h0 hle
    push_cast at hle
    obtain ⟨c1, c2⟩ := fault_cycle_run T f g s hs hf hg h0 (by omega)
    obtain ⟨k1, k2⟩ := ih _ c1 (by rw [c2]; omega) (by rw [c2]; omega)
    simp only [fault_stream, List.map_append, run_append]
    refine ⟨k1, ?_⟩
    rw [k2, c2]
    push_cast
    ring

theorem fault_stream_length (f g : Hw) (n : Nat) : (fault_stream f g n).length = 20 * n := by
  induction n with
  | zero => rfl
  | succ n ih =>
    simp only [fault_stream, fault_cycle, List.length_append, List.length_cons,
      List.length_replicate, ih]
    ring

/-- C20 fails on the code: from Running with penalty 0, the periodic stream in which
each period of 20 packets is one checksum failure followed by 19 good packets
gains one penalty point per period (+20, then 19 times -1).  After 81 periods
(1620 packets) the session is in Running with penalty 81, and packet 1621, the
82nd failure, brings the penalty to 101 and the session to Error. -/
theorem one_in_twenty_reaches_error :
    chk_fails (hw_packet [0, 0, 0, 0, 0, 0, 1] ⟨0, 0, 0⟩) ∧
    good_packet (hw_packet [0, 0, 0, 100, 0, 0, 100] ⟨0, 0, 0⟩) ∧
    (state_in S_LIDAR_RUNNING).chk_err_cnt = 0 ∧
    (fault_stream (hw_packet [0, 0, 0, 0, 0, 0, 1] ⟨0, 0, 0⟩)
      (hw_packet [0, 0, 0, 100, 0, 0, 100] ⟨0, 0, 0⟩) 81 ++
        [hw_packet [0, 0, 0, 0, 0, 0, 1] ⟨0, 0, 0⟩]).length = 1621 ∧
    (run ref_tables (state_in S_LIDAR_RUNNING)
      ((fault_stream (hw_packet [0, 0, 0, 0, 0, 0, 1] ⟨0, 0, 0⟩)
        (hw_packet [0, 0, 0, 100, 0, 0, 100] ⟨0, 0, 0⟩) 81).map
          Event.rx_done)).cur_lidar_state = S_LIDAR_RUNNING ∧
    (run ref_tables (state_in S_LIDAR_RUNNING)
      ((fault_stream (hw_packet [0, 0, 0, 0, 0, 0, 1] ⟨0, 0, 0⟩)
        (hw_packet [0, 0, 0, 100, 0, 0, 100] ⟨0, 0, 0⟩) 81).map
          Event.rx_done)).chk_err_cnt = 81 ∧
    (run ref_tables (state_in S_LIDAR_RUNNING)
      ((fault_stream (hw_packet [0, 0, 0, 0, 0, 0, 1] ⟨0, 0, 0⟩)
        (hw_packet [0, 0, 0, 100, 0, 0, 100] ⟨0, 0, 0⟩) 81 ++
          [hw_packet [0, 0, 0, 0, 0, 0, 1] ⟨0, 0, 0⟩]).map
          Event.rx_done)).cur_lidar_state = S_LIDAR_ERROR := by
  have hf : chk_fails (hw_packet [0, 0, 0, 0, 0, 0, 1] ⟨0, 0, 0⟩) := by decide
  have hg : good_packet (hw_packet [0, 0, 0, 100, 0, 0, 100] ⟨0, 0, 0⟩) :=
    ⟨by decide, by rw [← error_bits_iff _ (pkt_lt _ _)]; decide, by decide⟩
  obtain ⟨r1, r2⟩ := fault_stream_run ref_tables _ _ hf hg 81 (state_in S_LIDAR_RUNNING) rfl
    (by decide) (by decide)
  have r2b : (run ref_tables (state_in S_LIDAR_RUNNING)
      ((fault_stream (hw_packet [0, 0, 0, 0, 0, 0, 1] ⟨0, 0, 0⟩)
        (hw_packet [0, 0, 0, 100, 0, 0, 100] ⟨0, 0, 0⟩) 81).map
          Event.rx_done)).chk_err_cnt = 81 := by rw [r2]; rfl
  refine ⟨hf, hg, rfl, ?_, r1, r2b, ?_⟩
  · rw [List.length_append, fault_stream_length]; rfl
  · rw [List.map_append, run_append]
    have hc := (fault_cond_iff (hw_packet [0, 0, 0, 0, 0, 0, 1] ⟨0, 0, 0⟩)).mpr (Or.inl hf)
    generalize run ref_tables (state_in S_LIDAR_RUNNING)
      ((fault_stream (hw_packet [0, 0, 0, 0, 0, 0, 1] ⟨0, 0, 0⟩)
        (hw_packet [0, 0, 0, 100, 0, 0, 100] ⟨0, 0, 0⟩) 81).map Event.rx_done) = a at r1 r2b
    simp only [List.map_cons, List.map_nil, run, step, lidar_rx_done_inthandler, r1, rx_running]
    rw [if_pos hc, if_pos (by show a.chk_err_cnt + 20 > 100; rw [r2b]; norm_num)]

/-! ### Polling tick -/

theorem tick_keeps_state (s : State) (h : s.cur_lidar_state ≠ S_LIDAR_WAITPOWERED) :
    (lidar_fsm s).cur_lidar_state = s.cur_lidar_state := by
  unfold lidar_fsm
  split
  · rename_i hw; exact absurd hw h
  · simp only; split_ifs <;> rfl
  · simp only; split_ifs <;> rfl
  · rfl

/-- C21: starting in PreconfWaitReady or WaitReady with poll countdown n >= 1 and
ticks only, the first n-1 ticks transmit nothing, the n-th tick transmits exactly
one command, the three bytes 'M','Z','\n' with 4 reply bytes requested, none of
these ticks changes `cur_lidar_state`, and in no state other than WaitPowered does
a tick change `cur_lidar_state`. -/
theorem poll_fires_at_countdown (T : Tables) (s : State) (n : Nat) (hn : 1 ≤ n)
    (hs : s.cur_lidar_state = S_LIDAR_PRECONF_WAIT_READY ∨
      s.cur_lidar_state = S_LIDAR_WAIT_READY)
    (hp : s.wait_ready_poll_cnt = (n : Int)) :
    (∀ k, k < n → (run T s (List.replicate k Event.tick)).io = s.io) ∧
    (run T s (List.replicate n Event.tick)).io = s.io ++ [Effect.send_cmd [77, 90, 10] 4] ∧
    (∀ k, k ≤ n →
      (run T s (List.replicate k Event.tick)).cur_lidar_state = s.cur_lidar_state) ∧
    (∀ s0 : State, s0.cur_lidar_state ≠ S_LIDAR_WAITPOWERED →
      (lidar_fsm s0).cur_lidar_state = s0.cur_lidar_state) := by
  have hbefore : ∀ k, k < n →
      run T s (List.replicate k Event.tick) =
        { s with wait_ready_poll_cnt := s.wait_ready_poll_cnt - k } :=
    fun k hk => (ticks_poll T k s hs (by rw [hp]; exact_mod_cast hk)).1
  obtain ⟨m, rfl⟩ : ∃ m, n = m + 1 := ⟨n - 1, by omega⟩
  have hm := hbefore m (by omega)
  have hlast : run T s (List.replicate (m + 1) Event.tick) =
      step T (run T s (List.replicate m Event.tick)) Event.tick := by
    rw [List.replicate_succ' m, run_append]; rfl
  have hcur : (run T s (List.replicate m Event.tick)).cur_lidar_state = s.cur_lidar_state := by
    rw [hm]
  have hcnt : (run T s (List.replicate m Event.tick)).wait_ready_poll_cnt = 1 := by
    rw [hm]; show s.wait_ready_poll_cnt - (m : Int) = 1; rw [hp]; push_cast; ring
  have hio : (run T s (List.replicate m Event.tick)).io = s.io := by rw [hm]
  obtain ⟨f1, -, -, f4⟩ := tick_fire T (run T s (List.replicate m Event.tick))
    (by rw [hcur]; exact hs) hcnt
  refine ⟨fun k hk => by rw [hbefore k hk], ?_, fun k hk => ?_, fun s0 h0 => tick_keeps_state s0 h0⟩
  · rw [hlast, f4, hio]
  · rcases Nat.lt_or_eq_of_le hk with h | h
    · rw [hbefore k h]
    · rw [h, hlast, f1, hcur]

/-- Witness of C21: PreconfWaitReady with countdown 3. -/
theorem poll_fires_witness :
    (run ref_tables { state_in S_LIDAR_PRECONF_WAIT_READY with wait_ready_poll_cnt := 3 }
      (List.replicate 3 Event.tick)).io =
      ({ state_in S_LIDAR_PRECONF_WAIT_READY with wait_ready_poll_cnt := 3 } : State).io ++
        [Effect.send_cmd [77, 90, 10] 4] :=
  (poll_fires_at_countdown ref_tables
    { state_in S_LIDAR_PRECONF_WAIT_READY with wait_ready_poll_cnt := 3 } 3 (by decide)
    (Or.inl rfl) rfl).2.1

/-! ### Bounds of the scan writes -/

theorem degper16_eq (e : Hw) : degper16 e = pkt e 1 + 256 * pkt e 2 := by
  unfold degper16
  have h1 := pkt_lt e 1
  have h := Nat.mul_add_lt_is_or (show pkt e 1 < 2 ^ 8 by omega) (pkt e 2)
  rw [Nat.shiftLeft_eq, Nat.mul_comm, ← h]
  omega

theorem slot_of_eq (e : Hw) : slot_of e = (pkt e 1 + 256 * pkt e 2) / 8 := by
  unfold slot_of
  rw [Nat.shiftRight_eq_div_pow, degper16_eq]

theorem rx_store_writes (T : Tables) (e : Hw) (s : State) :
    (719 < slot_of e → ∀ k j, ((rx_store T e s).lidar_scans k).scan j = (s.lidar_scans k).scan j) ∧
    (∀ k j, ¬ (k = s.acq_lidar_scan ∧ j = slot_of e) →
      ((rx_store T e s).lidar_scans k).scan j = (s.lidar_scans k).scan j) := by
  unfold rx_store slot_of
  simp only
  constructor
  · intro h k j
    rw [if_pos h]
  · intro k j hkj
    split_ifs
    · rfl
    · simp only [upd_scan]
      by_cases hk : k = s.acq_lidar_scan
      · rw [if_pos hk]
        simp only
        rw [if_neg (fun hj => hkj ⟨hk, hj⟩)]
      · rw [if_neg hk]
    · simp only [upd_scan]
      by_cases hk : k = s.acq_lidar_scan
      · rw [if_pos hk]
        simp only
        rw [if_neg (fun hj => hkj ⟨hk, hj⟩)]
      · rw [if_neg hk]

theorem rx_good_writes (T : Tables) (e : Hw) (s : State) :
    (719 < slot_of e → ∀ k j, ((rx_good T e s).lidar_scans k).scan j = (s.lidar_scans k).scan j) ∧
    (∀ k j, ¬ (k = (rx_good T e s).acq_lidar_scan ∧ j = slot_of e) →
      ((rx_good T e s).lidar_scans k).scan j = (s.lidar_scans k).scan j) := by
  unfold rx_good
  simp only
  generalize hs2 : (if pkt e 0 ≠ 0 then sync_swap e.cur_pos
      (if s.chk_err_cnt ≠ 0 then { s with chk_err_cnt := s.chk_err_cnt - 1 } else s)
      else (if s.chk_err_cnt ≠ 0 then { s with chk_err_cnt := s.chk_err_cnt - 1 } else s)) = s2
  have hsc : ∀ k, (s2.lidar_scans k).scan = (s.lidar_scans k).scan := by
    intro k
    rw [← hs2]
    split_ifs
    · rw [(sync_swap_facts e.cur_pos _).2.2.2.2.2.2 k]
    · rw [(sync_swap_facts e.cur_pos _).2.2.2.2.2.2 k]
    · rfl
    · rfl
  obtain ⟨w1, w2⟩ := rx_store_writes T e s2
  obtain ⟨-, fa, -, -, -⟩ := rx_store_frame T e s2
  constructor
  · intro h k j
    rw [w1 h k j, hsc]
  · intro k j hkj
    rw [fa] at hkj
    rw [w2 k j hkj, hsc]

/-- C22: in Running, for every content of the seven packet bytes, the handler either
changes no sample of either scan, or changes at most the one slot of the acquiring
scan whose index is the 16-bit little-endian angle (byte 1 + 256 * byte 2) divided
by 8, and that index is at most 719.  No sample changes when the packet fails the
checksum or error-flag test or its slot index exceeds 719. -/
theorem scan_write_in_bounds (T : Tables) (s : State) (e : Hw)
    (hs : s.cur_lidar_state = S_LIDAR_RUNNING) :
    ((∀ k j, ((lidar_rx_done_inthandler T e s).lidar_scans k).scan j =
        (s.lidar_scans k).scan j) ∨
     (slot_of e ≤ 719 ∧
      ∀ k j, ¬ (k = (lidar_rx_done_inthandler T e s).acq_lidar_scan ∧ j = slot_of e) →
        ((lidar_rx_done_inthandler T e s).lidar_scans k).scan j = (s.lidar_scans k).scan j)) ∧
    slot_of e = (pkt e 1 + 256 * pkt e 2) / 8 ∧
    (chk_fails e ∨ has_error_bit (pkt e 0) ∨ 719 < slot_of e →
      ∀ k j, ((lidar_rx_done_inthandler T e s).lidar_scans k).scan j =
        (s.lidar_scans k).scan j) := by
  have hbad : chk_fails e ∨ has_error_bit (pkt e 0) →
      ∀ k j, ((lidar_rx_done_inthandler T e s).lidar_scans k).scan j =
        (s.lidar_scans k).scan j := by
    intro hb k j
    have hc := (fault_cond_iff e).mpr hb
    simp only [lidar_rx_done_inthandler, hs, rx_running]
    rw [if_pos hc]
    split_ifs <;> rfl
  have hgood : ¬ (chk_fails e ∨ has_error_bit (pkt e 0)) →
      lidar_rx_done_inthandler T e s = rx_good T e s :=
    fun hn => running_good T s e hs (fun h => hn (Or.inl h)) (fun h => hn (Or.inr h))
  refine ⟨?_, slot_of_eq e, ?_⟩
  · by_cases hb : chk_fails e ∨ has_error_bit (pkt e 0)
    · exact Or.inl (hbad hb)
    · rw [hgood hb]
      by_cases hslot : 719 < slot_of e
      · exact Or.inl ((rx_good_writes T e s).1 hslot)
      · exact Or.inr ⟨by omega, (rx_good_writes T e s).2⟩
  · rintro (h | h | h)
    · exact hbad (Or.inl h)
    · exact hbad (Or.inr h)
    · by_cases hb : chk_fails e ∨ has_error_bit (pkt e 0)
      · exact hbad hb
      · rw [hgood hb]
        exact (rx_good_writes T e s).1 h

/-- Witness of C22: the packet with angle 0xFFFF (slot index 8191) leaves slot 0 of
scan 0 as it was. -/
theorem scan_write_in_bounds_witness :
    ((lidar_rx_done_inthandler ref_tables (hw_packet [0, 255, 255, 0, 0, 0, 0] ⟨0, 0, 0⟩)
      (state_in S_LIDAR_RUNNING)).lidar_scans 0).scan 0 =
      ((state_in S_LIDAR_RUNNING).lidar_scans 0).scan 0 :=
  (scan_write_in_bounds ref_tables (state_in S_LIDAR_RUNNING)
    (hw_packet [0, 255, 255, 0, 0, 0, 0] ⟨0, 0, 0⟩) rfl).2.2 (Or.inr (Or.inr (by decide))) 0 0

/-! ### Range of the fixed-point product -/

theorem to_int32_of_fits (v : Int) (h : fits_int32 v) : to_int32 v = v := by
  obtain ⟨h1, h2⟩ := h
  unfold to_int32
  omega

theorem shr15_eq (p : Int) : p >>> (15 : Int) = p / 32768 := by
  have h15 : (15 : Int) = ((15 : Nat) : Int) := rfl
  rw [h15]
  cases p with
  | ofNat m =>
    rw [Int.ofNat_eq_coe, Int.shiftRight_coe_nat, Nat.shiftRight_eq_div_pow]
    norm_num
  | negSucc m =>
    rw [Int.shiftRight_negSucc, Nat.shiftRight_eq_div_pow, Int.negSucc_eq, Int.negSucc_eq]
    norm_num
    omega

theorem lut_product_bounds (a len : Int) (ha1 : -32767 ≤ a) (ha2 : a ≤ 32767) (hl : 0 ≤ len) :
    -(32767 * len) ≤ a * len ∧ a * len ≤ 32767 * len := by
  constructor
  · have := mul_le_mul_of_nonneg_right ha1 hl
    linarith
  · exact mul_le_mul_of_nonneg_right ha2 hl

theorem lut_mul_bounds (T : Tables) (idx len : Int)
    (hlut : -32767 ≤ T.sin_lut idx ∧ T.sin_lut idx ≤ 32767)
    (hl0 : 0 ≤ len) (hl : len ≤ 65530) :
    fits_int32 (T.sin_lut idx * len) ∧
    -len ≤ lut_mul T idx len ∧ lut_mul T idx len ≤ len := by
  obtain ⟨b1, b2⟩ := lut_product_bounds (T.sin_lut idx) len hlut.1 hlut.2 hl0
  have hfit : fits_int32 (T.sin_lut idx * len) := by
    unfold fits_int32; constructor <;> omega
  have hs : to_int32 (T.sin_lut idx) = T.sin_lut idx :=
    to_int32_of_fits _ (by unfold fits_int32; constructor <;> omega)
  have hlen : to_int32 len = len :=
    to_int32_of_fits _ (by unfold fits_int32; constructor <;> omega)
  refine ⟨hfit, ?_⟩
  unfold lut_mul
  rw [hs, hlen, to_int32_of_fits _ hfit, shr15_eq]
  generalize T.sin_lut idx * len = p at b1 b2
  constructor <;> omega

/-- C23 (as amended): with every `sin_lut` entry of magnitude at most 32767 and a
decoded length L with 2 <= L <= 6553 cm, the products sin_lut[x_idx]*(10*L) and
sin_lut[y_idx]*(10*L) are representable as `int32_t` and the two offsets added to
the pose have magnitude at most 10*L; for a good packet handled in Running, the
stored x satisfies |x - pose.x| <= 10*L whenever pose.x + offset is itself
representable as `int32_t`, and likewise y; and 6553 is the largest such bound:
at L = 6554 with a table entry of 32767 the product exceeds 2^31 - 1. -/
theorem lut_product_fits_int32 (T : Tables) (s : State) (e : Hw)
    (hs : s.cur_lidar_state = S_LIDAR_RUNNING)
    (hchk : ¬ chk_fails e) (herr : ¬ has_error_bit (pkt e 0))
    (hslot : slot_of e ≤ 719)
    (hlut : ∀ i, -32767 ≤ T.sin_lut i ∧ T.sin_lut i ≤ 32767)
    (h2 : 2 ≤ pkt_len e) (hL : pkt_len e ≤ 6553) :
    fits_int32 (T.sin_lut (x_idx T e) * (10 * (pkt_len e : Int))) ∧
    fits_int32 (T.sin_lut (y_idx T e) * (10 * (pkt_len e : Int))) ∧
    (-(10 * (pkt_len e : Int)) ≤ lut_mul T (x_idx T e) (10 * (pkt_len e : Int)) ∧
      lut_mul T (x_idx T e) (10 * (pkt_len e : Int)) ≤ 10 * (pkt_len e : Int)) ∧
    (-(10 * (pkt_len e : Int)) ≤ lut_mul T (y_idx T e) (10 * (pkt_len e : Int)) ∧
      lut_mul T (y_idx T e) (10 * (pkt_len e : Int)) ≤ 10 * (pkt_len e : Int)) ∧
    (fits_int32 (e.cur_pos.x + lut_mul T (x_idx T e) (10 * (pkt_len e : Int))) →
      |(((lidar_rx_done_inthandler T e s).lidar_scans
          (lidar_rx_done_inthandler T e s).acq_lidar_scan).scan (slot_of e)).x - e.cur_pos.x| ≤
        10 * (pkt_len e : Int)) ∧
    (fits_int32 (e.cur_pos.y + lut_mul T (y_idx T e) (10 * (pkt_len e : Int))) →
      |(((lidar_rx_done_inthandler T e s).lidar_scans
          (lidar_rx_done_inthandler T e s).acq_lidar_scan).scan (slot_of e)).y - e.cur_pos.y| ≤
        10 * (pkt_len e : Int)) ∧
    (2147483647 : Int) < 32767 * (10 * 6554) ∧
    to_int32 (32767 * (10 * 6554)) ≠ 32767 * (10 * 6554) := by
  have hl0 : (0 : Int) ≤ 10 * (pkt_len e : Int) := by omega
  have hl : 10 * (pkt_len e : Int) ≤ 65530 := by omega
  obtain ⟨fx, bx1, bx2⟩ := lut_mul_bounds T (x_idx T e) _ (hlut _) hl0 hl
  obtain ⟨fy, by1, by2⟩ := lut_mul_bounds T (y_idx T e) _ (hlut _) hl0 hl
  have key : ((lidar_rx_done_inthandler T e s).lidar_scans
        (lidar_rx_done_inthandler T e s).acq_lidar_scan).scan (slot_of e) =
      { valid := 1,
        x := to_int32 (e.cur_pos.x + lut_mul T (x_idx T e) (10 * (pkt_len e : Int))),
        y := to_int32 (e.cur_pos.y + lut_mul T (y_idx T e) (10 * (pkt_len e : Int))) } := by
    rw [running_good T s e hs hchk herr]
    unfold rx_good
    exact rx_store_point T e _ hslot h2
  refine ⟨fx, fy, ⟨bx1, bx2⟩, ⟨by1, by2⟩, fun hf => ?_, fun hf => ?_, by norm_num, by decide⟩
  · rw [key]
    simp only
    rw [to_int32_of_fits _ hf, abs_le]
    constructor <;> omega
  · rw [key]
    simp only
    rw [to_int32_of_fits _ hf, abs_le]
    constructor <;> omega

theorem ref_tables_bounded : ∀ i, -32767 ≤ ref_tables.sin_lut i ∧ ref_tables.sin_lut i ≤ 32767 := by
  intro i
  simp only [ref_tables]
  split_ifs <;> decide

/-- Witness of C23 (amended): angle 0, length 100 cm at the origin, where the
product for x is 32767 * 1000. -/
theorem lut_product_fits_witness :
    fits_int32 (ref_tables.sin_lut (x_idx ref_tables
      (hw_packet [0, 0, 0, 100, 0, 0, 100] ⟨0, 0, 0⟩)) *
      (10 * (pkt_len (hw_packet [0, 0, 0, 100, 0, 0, 100] ⟨0, 0, 0⟩) : Int))) :=
  (lut_product_fits_int32 ref_tables (state_in S_LIDAR_RUNNING)
    (hw_packet [0, 0, 0, 100, 0, 0, 100] ⟨0, 0, 0⟩) rfl (by decide)
    (by rw [← error_bits_iff _ (pkt_lt _ _)]; decide) (by decide) ref_tables_bounded
    (by decide) (by decide)).1

/-- C23 fails as stated: with every table entry of magnitude at most 32767 and
L = 100 cm, at pose.x = 2^31 - 1 and angle 0 the product 32767 * 1000 fits and
the offset is 999, but pose.x + 999 is not representable: the stored x is
-2147482650, so x - pose.x = -4294966297, whose magnitude exceeds 10 * L = 1000. -/
theorem offset_sum_wraps_at_extreme_pose :
    (∀ i, -32767 ≤ ref_tables.sin_lut i ∧ ref_tables.sin_lut i ≤ 32767) ∧
    ¬ chk_fails (hw_packet [0, 0, 0, 100, 0, 0, 100] ⟨0, 2147483647, 0⟩) ∧
    pkt (hw_packet [0, 0, 0, 100, 0, 0, 100] ⟨0, 2147483647, 0⟩) 0 = 0 ∧
    slot_of (hw_packet [0, 0, 0, 100, 0, 0, 100] ⟨0, 2147483647, 0⟩) = 0 ∧
    pkt_len (hw_packet [0, 0, 0, 100, 0, 0, 100] ⟨0, 2147483647, 0⟩) = 100 ∧
    lut_mul ref_tables (x_idx ref_tables
      (hw_packet [0, 0, 0, 100, 0, 0, 100] ⟨0, 2147483647, 0⟩)) 1000 = 999 ∧
    (((lidar_rx_done_inthandler ref_tables
      (hw_packet [0, 0, 0, 100, 0, 0, 100] ⟨0, 2147483647, 0⟩)
      (state_in S_LIDAR_RUNNING)).lidar_scans 0).scan 0).x = -2147482650 ∧
    ¬ (|(((lidar_rx_done_inthandler ref_tables
      (hw_packet [0, 0, 0, 100, 0, 0, 100] ⟨0, 2147483647, 0⟩)
      (state_in S_LIDAR_RUNNING)).lidar_scans 0).scan 0).x - 2147483647| ≤ 10 * 100) := by
  have hx : (((lidar_rx_done_inthandler ref_tables
      (hw_packet [0, 0, 0, 100, 0, 0, 100] ⟨0, 2147483647, 0⟩)
      (state_in S_LIDAR_RUNNING)).lidar_scans 0).scan 0).x = -2147482650 := by decide
  refine ⟨ref_tables_bounded, by decide, by decide, by decide, by decide, by decide, hx, ?_⟩
  rw [hx]
  decide

end Lidar
